import Mathlib

/-!
# duckdb_example: a verification development

Shallow embedding of the two demonstration programs of the repository

* `src/official/main.go`  (raw `database/sql` access to DuckDB), namespace `Official`;
* `src/gorm_driver_v1/main.go` (GORM access to DuckDB), namespace `GormDriverV1`.

The database handle is modelled by explicit state passing.  Every call that the
Go code makes on the handle is routed through a driver record whose fields are
arbitrary functions on an abstract storage state, so that a theorem quantified
over the driver holds for every behaviour the storage engine may show
(including faults).  The handle additionally records, in order, the statements
handed to the driver and the text written to standard output.

Go's `error` is `Option GoError` (`none` is `nil`).  Go's `int`, `int64` and
`uint` values are only passed on, compared with 0 and printed, never computed
with, so they are `Int` and `Nat` without a word size.
-/

namespace DuckdbExample

/-- A Go error value.  `errNoRows` is the sentinel `sql.ErrNoRows`,
`errRecordNotFound` the sentinel `gorm.ErrRecordNotFound`, `storage` any other
error reported by the driver, `errorf` the result of `fmt.Errorf` without `%w`
and `wrapf` the result of `fmt.Errorf` with a trailing `%w` verb. -/
inductive GoError where
  | errNoRows
  | errRecordNotFound
  | storage (msg : String)
  | errorf (msg : String)
  | wrapf (msg : String) (inner : GoError)
  deriving DecidableEq, Repr

namespace GoError

/-- The text of `err.Error()`. -/
def message : GoError → String
  | errNoRows => "sql: no rows in result set"
  | errRecordNotFound => "record not found"
  | storage m => m
  | errorf m => m
  | wrapf m inner => m ++ inner.message

end GoError

/-- A value bound to a statement placeholder. -/
inductive Value where
  | int (i : Int)
  | str (s : String)
  | bool (b : Bool)
  deriving DecidableEq, Repr

namespace Official

/-- The struct `User` of `src/official/main.go`. -/
structure User where
  ID : Int
  Name : String
  Age : Int
  deriving DecidableEq, Repr

/-- The value of `sql.Result`: what `RowsAffected()` reports. -/
structure ExecResult where
  rowsAffected : Except GoError Int

/-- The value of `*sql.Rows`: the outcome of `rows.Scan` for each row that
`rows.Next()` yields, and what `rows.Err()` reports once `Next` has returned
false. -/
structure Rows where
  scans : List (Except GoError User)
  err : Option GoError

/-- The storage engine behind `*sql.DB`, over an abstract storage state. -/
structure Driver (σ : Type) where
  exec : σ → String → List Value → σ × Except GoError ExecResult
  query : σ → String → List Value → σ × Except GoError Rows
  queryRow : σ → String → List Value → σ × Except GoError User

/-- One statement handed to the storage engine. -/
inductive Call where
  | exec (sql : String) (args : List Value)
  | query (sql : String) (args : List Value)
  | queryRow (sql : String) (args : List Value)
  deriving DecidableEq, Repr

/-- The database handle: storage state, the calls issued so far (oldest first)
and the text printed so far (oldest first). -/
structure Conn (σ : Type) where
  st : σ
  calls : List Call
  out : List String

/-- A handle on storage state `s` with nothing issued and nothing printed. -/
def Conn.fresh {σ : Type} (s : σ) : Conn σ := ⟨s, [], []⟩

/-- `db.Exec(sql, args...)`. -/
def dbExec {σ : Type} (d : Driver σ) (c : Conn σ) (sql : String) (args : List Value) :
    Conn σ × Except GoError ExecResult :=
  let r := d.exec c.st sql args
  ({ c with st := r.1, calls := c.calls ++ [Call.exec sql args] }, r.2)

/-- `db.Query(sql, args...)`. -/
def dbQuery {σ : Type} (d : Driver σ) (c : Conn σ) (sql : String) (args : List Value) :
    Conn σ × Except GoError Rows :=
  let r := d.query c.st sql args
  ({ c with st := r.1, calls := c.calls ++ [Call.query sql args] }, r.2)

/-- `db.QueryRow(sql, args...).Scan(&user.ID, &user.Name, &user.Age)`. -/
def dbQueryRowScan {σ : Type} (d : Driver σ) (c : Conn σ) (sql : String) (args : List Value) :
    Conn σ × Except GoError User :=
  let r := d.queryRow c.st sql args
  ({ c with st := r.1, calls := c.calls ++ [Call.queryRow sql args] }, r.2)

/-- `fmt.Print` family: append one piece of text to standard output. -/
def print {σ : Type} (c : Conn σ) (s : String) : Conn σ :=
  { c with out := c.out ++ [s] }

/-- The verb `%-Ns`: left-justified text padded with blanks to width `n`. -/
def padRight (s : String) (n : Nat) : String :=
  s ++ String.mk (List.replicate (n - s.length) ' ')

/-- The verb `%d`. -/
def fmtInt (i : Int) : String := toString i

/-- The statement of `createTable` (main.go lines 75-82). -/
def createTableSQL : String :=
  "\n\t\tCREATE SEQUENCE IF NOT EXISTS user_id_seq START 1;\n\t\tCREATE TABLE IF NOT EXISTS users (\n\t\t\tid INTEGER PRIMARY KEY DEFAULT nextval(\x27user_id_seq\x27),\n\t\t\tname VARCHAR(100) NOT NULL,\n\t\t\tage INTEGER NOT NULL\n\t\t)\n\t"

/-- The statement of `insertUsers` (line 99). -/
def insertSQL : String := "INSERT INTO users (name, age) VALUES (?, ?)"

/-- The statement of `queryAllUsers` (line 109). -/
def selectAllSQL : String := "SELECT id, name, age FROM users ORDER BY id"

/-- The statement of `queryUserByID` (line 133). -/
def selectByIDSQL : String := "SELECT id, name, age FROM users WHERE id = ?"

/-- The statement of `updateUser` (line 149). -/
def updateSQL : String := "UPDATE users SET name = ?, age = ? WHERE id = ?"

/-- The statement of `deleteUser` (line 168). -/
def deleteSQL : String := "DELETE FROM users WHERE id = ?"

/-- Lines 74-85. -/
def createTable {σ : Type} (d : Driver σ) (c : Conn σ) : Conn σ × Option GoError :=
  match dbExec d c createTableSQL [] with
  | (c1, .error err) => (c1, some err)
  | (c1, .ok _) => (c1, none)

/-- The slice literal `users` of `insertUsers` (lines 89-96). -/
def seedUsers : List (String × Int) := [("Alice", 25), ("Bob", 30), ("Charlie", 35)]

/-- The `for _, user := range users` loop of `insertUsers` (lines 98-103). -/
def insertLoop {σ : Type} (d : Driver σ) : List (String × Int) → Conn σ → Conn σ × Option GoError
  | [], c => (c, none)
  | user :: rest, c =>
    match dbExec d c insertSQL [Value.str user.1, Value.int user.2] with
    | (c1, .error err) => (c1, some (GoError.wrapf ("failed to insert user " ++ user.1 ++ ": ") err))
    | (c1, .ok _) => insertLoop d rest c1

/-- Lines 88-105. -/
def insertUsers {σ : Type} (d : Driver σ) (c : Conn σ) : Conn σ × Option GoError :=
  insertLoop d seedUsers c

/-- The row line `fmt.Printf("%-5d %-15s %-5d\n", ...)` (line 124). -/
def fmtUserRow (u : User) : String :=
  padRight (fmtInt u.ID) 5 ++ " " ++ padRight u.Name 15 ++ " " ++ padRight (fmtInt u.Age) 5 ++ "\n"

/-- The `for rows.Next()` loop of `queryAllUsers` followed by `return rows.Err()`
(lines 119-127). -/
def scanLoop {σ : Type} : List (Except GoError User) → Option GoError → Conn σ →
    Conn σ × Option GoError
  | [], e, c => (c, e)
  | .error err :: _, _, c => (c, some err)
  | .ok user :: rest, e, c => scanLoop rest e (print c (fmtUserRow user))

/-- The three header prints of `queryAllUsers` (lines 115-117). -/
def allUsersHeader : List String :=
  ["\n=== All Users ===\n",
   padRight "ID" 5 ++ " " ++ padRight "Name" 15 ++ " " ++ padRight "Age" 5 ++ "\n",
   "------------------------------\n"]

/-- Lines 108-128.  The deferred `rows.Close()` only releases the result and is
not part of the model. -/
def queryAllUsers {σ : Type} (d : Driver σ) (c : Conn σ) : Conn σ × Option GoError :=
  match dbQuery d c selectAllSQL [] with
  | (c1, .error err) => (c1, some err)
  | (c1, .ok rows) =>
    scanLoop rows.scans rows.err { c1 with out := c1.out ++ allUsersHeader }

/-- Lines 131-145. -/
def queryUserByID {σ : Type} (d : Driver σ) (c : Conn σ) (id : Int) : Conn σ × Option GoError :=
  match dbQueryRowScan d c selectByIDSQL [Value.int id] with
  | (c1, .error err) =>
    if err = GoError.errNoRows then
      (print c1 ("\n❌ No user found with ID: " ++ fmtInt id ++ "\n"), none)
    else
      (c1, some err)
  | (c1, .ok user) =>
    (print (print c1 ("\n=== User ID " ++ fmtInt id ++ " ===\n"))
      ("ID: " ++ fmtInt user.ID ++ ", Name: " ++ user.Name ++ ", Age: " ++ fmtInt user.Age ++ "\n"),
     none)

/-- Lines 148-164. -/
def updateUser {σ : Type} (d : Driver σ) (c : Conn σ) (id : Int) (name : String) (age : Int) :
    Conn σ × Option GoError :=
  match dbExec d c updateSQL [Value.str name, Value.int age, Value.int id] with
  | (c1, .error err) => (c1, some err)
  | (c1, .ok result) =>
    match result.rowsAffected with
    | .error err => (c1, some err)
    | .ok rowsAffected =>
      if rowsAffected = 0 then
        (c1, some (GoError.errorf ("no user found with ID: " ++ fmtInt id)))
      else
        (c1, none)

/-- Lines 167-183. -/
def deleteUser {σ : Type} (d : Driver σ) (c : Conn σ) (id : Int) : Conn σ × Option GoError :=
  match dbExec d c deleteSQL [Value.int id] with
  | (c1, .error err) => (c1, some err)
  | (c1, .ok result) =>
    match result.rowsAffected with
    | .error err => (c1, some err)
    | .ok rowsAffected =>
      if rowsAffected = 0 then
        (c1, some (GoError.errorf ("no user found with ID: " ++ fmtInt id)))
      else
        (c1, none)

/-- How `main` ends: `log.Fatal(msg, err)` at some step, or normal return. -/
inductive MainExit (σ : Type) where
  | fatal (msg : String) (err : GoError) (c : Option (Conn σ))
  | done (c : Conn σ)

/-- Lines 17-71.  `opened` is what `sql.Open("duckdb", "")` returned. -/
def main {σ : Type} (d : Driver σ) (opened : Except GoError σ) : MainExit σ :=
  match opened with
  | .error err => .fatal "Failed to connect to DuckDB:" err none
  | .ok s =>
    let c0 := print (Conn.fresh s) "✅ Successfully connected to DuckDB\n"
    match createTable d c0 with
    | (c1, some err) => .fatal "Failed to create table:" err (some c1)
    | (c1, none) =>
    let c1 := print c1 "✅ Table created successfully\n"
    match insertUsers d c1 with
    | (c2, some err) => .fatal "Failed to insert users:" err (some c2)
    | (c2, none) =>
    let c2 := print c2 "✅ Users inserted successfully\n"
    match queryAllUsers d c2 with
    | (c3, some err) => .fatal "Failed to query users:" err (some c3)
    | (c3, none) =>
    match queryUserByID d c3 1 with
    | (c4, some err) => .fatal "Failed to query user by ID:" err (some c4)
    | (c4, none) =>
    match updateUser d c4 1 "Alice Updated" 26 with
    | (c5, some err) => .fatal "Failed to update user:" err (some c5)
    | (c5, none) =>
    let c5 := print c5 "✅ User updated successfully\n"
    match queryUserByID d c5 1 with
    | (c6, some err) => .fatal "Failed to query updated user:" err (some c6)
    | (c6, none) =>
    match deleteUser d c6 2 with
    | (c7, some err) => .fatal "Failed to delete user:" err (some c7)
    | (c7, none) =>
    let c7 := print (print c7 "✅ User deleted successfully\n") "\n=== Final user list ===\n"
    match queryAllUsers d c7 with
    | (c8, some err) => .fatal "Failed to query final users:" err (some c8)
    | (c8, none) => .done c8

/-! ### A storage model that reads the statement text

The model is a small SQL engine: a lexer, a parser for the statement forms
below and an interpreter over a catalog of sequences and tables.  It knows
nothing of the program; what a call does is decided by the text and the
parameters that the call hands over.

* `CREATE SEQUENCE [IF NOT EXISTS] s [START [WITH] n]`
* `CREATE TABLE [IF NOT EXISTS] t (c type [PRIMARY KEY] [NOT NULL] [DEFAULT nextval('s')], ...)`
* `INSERT INTO t (c, ...) VALUES (e, ...)`
* `UPDATE t SET c = e, ... [WHERE c op e]`
* `DELETE FROM t [WHERE c op e]`
* `SELECT c, ... FROM t [WHERE c op e] [ORDER BY c [ASC | DESC]]`

with `e` a placeholder `?`, a natural number or a quoted text, `op` one of
`=`, `<>`, `!=`, `<`, `<=`, `>`, `>=`, and `type` one of `INTEGER`, `BIGINT`,
`VARCHAR[(n)]`, `TEXT`.  Integer columns are unbounded and the length of a
`VARCHAR(n)` is not enforced (as in DuckDB).  Anything else is refused with an
error. -/

/-- A lexical token.  Words (identifiers, keywords, numbers) are upper-cased,
SQL being case-insensitive in them. -/
inductive Tok where
  | word (s : String)
  | sym (c : Char)
  | lit (s : String)
  | param
  deriving DecidableEq, Repr

/-- The single-quote character. -/
def quoteChar : Char := Char.ofNat 39

/-- Close the word being read, if any. -/
def flushWord (acc : List Char) (rest : List Tok) : List Tok :=
  match acc with
  | [] => rest
  | _ :: _ => Tok.word (String.mk acc.reverse) :: rest

/-- The lexer: `acc` is the word being read (reversed), `quoted` the quoted
text being read (reversed) when inside quotes. -/
def lexFrom : List Char → List Char → Option (List Char) → List Tok
  | [], acc, none => flushWord acc []
  | [], _, some _ => [Tok.sym quoteChar]
  | ch :: rest, acc, some q =>
    if ch = quoteChar then Tok.lit (String.mk q.reverse) :: lexFrom rest acc none
    else lexFrom rest acc (some (ch :: q))
  | ch :: rest, acc, none =>
    if ch.isAlphanum || ch == '_' then lexFrom rest (ch.toUpper :: acc) none
    else if ch = quoteChar then flushWord acc (lexFrom rest [] (some []))
    else if ch.isWhitespace then flushWord acc (lexFrom rest [] none)
    else if ch = '?' then flushWord acc (Tok.param :: lexFrom rest [] none)
    else flushWord acc (Tok.sym ch :: lexFrom rest [] none)

/-- The tokens of a statement text. -/
def lex (sql : String) : List Tok := lexFrom sql.toList [] none

/-- Split a token list at the semicolons, dropping empty statements. -/
def splitStmts : List Tok → List Tok → List (List Tok)
  | [], [] => []
  | [], cur => [cur.reverse]
  | Tok.sym ';' :: rest, [] => splitStmts rest []
  | Tok.sym ';' :: rest, cur => cur.reverse :: splitStmts rest []
  | t :: rest, cur => splitStmts rest (t :: cur)

/-- A value expression of a statement. -/
inductive SqlExpr where
  | param
  | int (i : Int)
  | str (s : String)
  deriving DecidableEq, Repr

/-- A comparison operator. -/
inductive CmpOp where
  | eq | ne | lt | le | gt | ge
  deriving DecidableEq, Repr

/-- A `WHERE` condition: one comparison of a column with an expression. -/
structure Cond where
  col : String
  op : CmpOp
  rhs : SqlExpr
  deriving DecidableEq, Repr

/-- A column type. -/
inductive ColType where
  | integer
  | varchar
  deriving DecidableEq, Repr

/-- A column definition; `dflt` names the sequence of a `DEFAULT nextval`. -/
structure Column where
  name : String
  ty : ColType
  primaryKey : Bool
  notNull : Bool
  dflt : Option String
  deriving DecidableEq, Repr

/-- A parsed statement. -/
inductive Statement where
  | createSequence (ifNotExists : Bool) (name : String) (start : Int)
  | createTable (ifNotExists : Bool) (name : String) (cols : List Column)
  | insert (table : String) (cols : List String) (vals : List SqlExpr)
  | update (table : String) (sets : List (String × SqlExpr)) (cond : Option Cond)
  | delete (table : String) (cond : Option Cond)
  | select (cols : List String) (table : String) (cond : Option Cond)
      (order : Option (String × Bool))
  deriving DecidableEq, Repr

/-- Decimal digits to a number. -/
def parseNatChars : List Char → Nat → Option Nat
  | [], n => some n
  | ch :: rest, n => if ch.isDigit then parseNatChars rest (10 * n + (ch.toNat - 48)) else none

/-- A word as a natural number. -/
def parseNat (s : String) : Option Nat :=
  match s.toList with
  | [] => none
  | ch :: rest => parseNatChars (ch :: rest) 0

/-- A token as a value expression. -/
def parseExpr : Tok → Option SqlExpr
  | Tok.param => some SqlExpr.param
  | Tok.lit s => some (SqlExpr.str s)
  | Tok.word w => (parseNat w).map (fun n => SqlExpr.int (Int.ofNat n))
  | Tok.sym _ => none

/-- The optional `IF NOT EXISTS`. -/
def parseIfNotExists : List Tok → Bool × List Tok
  | Tok.word "IF" :: Tok.word "NOT" :: Tok.word "EXISTS" :: rest => (true, rest)
  | toks => (false, toks)

/-- After `CREATE SEQUENCE`. -/
def parseCreateSequence (toks : List Tok) : Option Statement :=
  match parseIfNotExists toks with
  | (ine, [Tok.word name]) => some (Statement.createSequence ine name 1)
  | (ine, [Tok.word name, Tok.word "START", Tok.word n]) =>
    (parseNat n).map (fun k => Statement.createSequence ine name (Int.ofNat k))
  | (ine, [Tok.word name, Tok.word "START", Tok.word "WITH", Tok.word n]) =>
    (parseNat n).map (fun k => Statement.createSequence ine name (Int.ofNat k))
  | _ => none

/-- Split the tokens of a parenthesised list at its top-level commas. -/
def splitTop : List Tok → Nat → List Tok → List (List Tok)
  | [], _, cur => [cur.reverse]
  | Tok.sym '(' :: rest, depth, cur => splitTop rest (depth + 1) (Tok.sym '(' :: cur)
  | Tok.sym ')' :: rest, depth, cur => splitTop rest (depth - 1) (Tok.sym ')' :: cur)
  | Tok.sym ',' :: rest, 0, cur => cur.reverse :: splitTop rest 0 []
  | t :: rest, depth, cur => splitTop rest depth (t :: cur)

/-- The constraints that follow a column's type. -/
def parseColOpts : List Tok → Column → Option Column
  | [], c => some c
  | Tok.word "PRIMARY" :: Tok.word "KEY" :: rest, c =>
    parseColOpts rest { c with primaryKey := true, notNull := true }
  | Tok.word "NOT" :: Tok.word "NULL" :: rest, c => parseColOpts rest { c with notNull := true }
  | Tok.word "DEFAULT" :: Tok.word "NEXTVAL" :: Tok.sym '(' :: Tok.lit s :: Tok.sym ')' :: rest, c =>
    parseColOpts rest { c with dflt := some (String.mk (s.toList.map Char.toUpper)) }
  | _, _ => none

/-- One column definition. -/
def parseColumn : List Tok → Option Column
  | Tok.word name :: Tok.word "INTEGER" :: rest =>
    parseColOpts rest ⟨name, ColType.integer, false, false, none⟩
  | Tok.word name :: Tok.word "BIGINT" :: rest =>
    parseColOpts rest ⟨name, ColType.integer, false, false, none⟩
  | Tok.word name :: Tok.word "VARCHAR" :: Tok.sym '(' :: Tok.word n :: Tok.sym ')' :: rest =>
    match parseNat n with
    | some _ => parseColOpts rest ⟨name, ColType.varchar, false, false, none⟩
    | none => none
  | Tok.word name :: Tok.word "VARCHAR" :: rest =>
    parseColOpts rest ⟨name, ColType.varchar, false, false, none⟩
  | Tok.word name :: Tok.word "TEXT" :: rest =>
    parseColOpts rest ⟨name, ColType.varchar, false, false, none⟩
  | _ => none

/-- Parse every element of a list, failing when one fails. -/
def parseAll {α β : Type} (f : α → Option β) : List α → Option (List β)
  | [] => some []
  | a :: rest =>
    match f a, parseAll f rest with
    | some b, some bs => some (b :: bs)
    | _, _ => none

/-- After `CREATE TABLE`. -/
def parseCreateTable (toks : List Tok) : Option Statement :=
  match parseIfNotExists toks with
  | (ine, Tok.word name :: Tok.sym '(' :: body) =>
    match body.getLast? with
    | some (Tok.sym ')') =>
      (parseAll parseColumn (splitTop body.dropLast 0 [])).map
        (fun cols => Statement.createTable ine name cols)
    | _ => none
  | _ => none

/-- A comma-separated list of names closed by `)`, and what follows it. -/
def parseNameList : List Tok → Option (List String × List Tok)
  | Tok.word n :: Tok.sym ')' :: rest => some ([n], rest)
  | Tok.word n :: Tok.sym ',' :: rest =>
    match parseNameList rest with
    | some (ns, tail) => some (n :: ns, tail)
    | none => none
  | _ => none

/-- A comma-separated list of expressions closed by `)`, and what follows. -/
def parseExprList : List Tok → Option (List SqlExpr × List Tok)
  | t :: Tok.sym ')' :: rest => (parseExpr t).map (fun e => ([e], rest))
  | t :: Tok.sym ',' :: rest =>
    match parseExpr t, parseExprList rest with
    | some e, some (es, tail) => some (e :: es, tail)
    | _, _ => none
  | _ => none

/-- After `INSERT INTO`. -/
def parseInsert : List Tok → Option Statement
  | Tok.word table :: Tok.sym '(' :: rest =>
    match parseNameList rest with
    | some (cols, Tok.word "VALUES" :: Tok.sym '(' :: tail) =>
      match parseExprList tail with
      | some (vals, []) => some (Statement.insert table cols vals)
      | _ => none
    | _ => none
  | _ => none

/-- A condition `c op e`. -/
def parseCond : List Tok → Option Cond
  | [Tok.word c, Tok.sym '=', t] => (parseExpr t).map (fun e => ⟨c, CmpOp.eq, e⟩)
  | [Tok.word c, Tok.sym '<', Tok.sym '>', t] => (parseExpr t).map (fun e => ⟨c, CmpOp.ne, e⟩)
  | [Tok.word c, Tok.sym '!', Tok.sym '=', t] => (parseExpr t).map (fun e => ⟨c, CmpOp.ne, e⟩)
  | [Tok.word c, Tok.sym '<', Tok.sym '=', t] => (parseExpr t).map (fun e => ⟨c, CmpOp.le, e⟩)
  | [Tok.word c, Tok.sym '>', Tok.sym '=', t] => (parseExpr t).map (fun e => ⟨c, CmpOp.ge, e⟩)
  | [Tok.word c, Tok.sym '<', t] => (parseExpr t).map (fun e => ⟨c, CmpOp.lt, e⟩)
  | [Tok.word c, Tok.sym '>', t] => (parseExpr t).map (fun e => ⟨c, CmpOp.gt, e⟩)
  | _ => none

/-- The optional `WHERE` clause that ends a statement. -/
def parseWhere : List Tok → Option (Option Cond)
  | [] => some none
  | Tok.word "WHERE" :: rest => (parseCond rest).map some
  | _ => none

/-- The assignments after `SET`, and the tokens of the `WHERE` clause. -/
def parseSets : List Tok → Option (List (String × SqlExpr) × List Tok)
  | Tok.word c :: Tok.sym '=' :: t :: Tok.sym ',' :: rest =>
    match parseExpr t, parseSets rest with
    | some e, some (sets, tail) => some ((c, e) :: sets, tail)
    | _, _ => none
  | Tok.word c :: Tok.sym '=' :: t :: rest => (parseExpr t).map (fun e => ([(c, e)], rest))
  | _ => none

/-- After `UPDATE`. -/
def parseUpdate : List Tok → Option Statement
  | Tok.word table :: Tok.word "SET" :: rest =>
    match parseSets rest with
    | some (sets, tail) => (parseWhere tail).map (fun w => Statement.update table sets w)
    | none => none
  | _ => none

/-- After `DELETE FROM`. -/
def parseDelete : List Tok → Option Statement
  | Tok.word table :: rest => (parseWhere rest).map (fun w => Statement.delete table w)
  | _ => none

/-- The selected columns up to `FROM`, and what follows it. -/
def parseSelectCols : List Tok → Option (List String × List Tok)
  | Tok.word n :: Tok.word "FROM" :: rest => some ([n], rest)
  | Tok.word n :: Tok.sym ',' :: rest =>
    match parseSelectCols rest with
    | some (ns, tail) => some (n :: ns, tail)
    | none => none
  | _ => none

/-- Split off a trailing `ORDER BY` clause. -/
def splitOrder : List Tok → List Tok → List Tok × Option (List Tok)
  | [], cur => (cur.reverse, none)
  | Tok.word "ORDER" :: Tok.word "BY" :: rest, cur => (cur.reverse, some rest)
  | t :: rest, cur => splitOrder rest (t :: cur)

/-- The clause after `ORDER BY`: a column and whether it is descending. -/
def parseOrder : Option (List Tok) → Option (Option (String × Bool))
  | none => some none
  | some [Tok.word c] => some (some (c, false))
  | some [Tok.word c, Tok.word "ASC"] => some (some (c, false))
  | some [Tok.word c, Tok.word "DESC"] => some (some (c, true))
  | some _ => none

/-- After `SELECT`. -/
def parseSelect (toks : List Tok) : Option Statement :=
  match parseSelectCols toks with
  | some (cols, Tok.word table :: rest) =>
    match parseWhere (splitOrder rest []).1, parseOrder (splitOrder rest []).2 with
    | some w, some o => some (Statement.select cols table w o)
    | _, _ => none
  | _ => none

/-- One statement. -/
def parseStmt : List Tok → Option Statement
  | Tok.word "CREATE" :: Tok.word "SEQUENCE" :: rest => parseCreateSequence rest
  | Tok.word "CREATE" :: Tok.word "TABLE" :: rest => parseCreateTable rest
  | Tok.word "INSERT" :: Tok.word "INTO" :: rest => parseInsert rest
  | Tok.word "UPDATE" :: rest => parseUpdate rest
  | Tok.word "DELETE" :: Tok.word "FROM" :: rest => parseDelete rest
  | Tok.word "SELECT" :: rest => parseSelect rest
  | _ => none

/-- The statements of a text, separated by semicolons. -/
def parseScript (sql : String) : Option (List Statement) :=
  parseAll parseStmt (splitStmts (lex sql) [])

/-- A stored cell: a value, or `none` for NULL. -/
abbrev Cell := Option Value

/-- A table of the catalog: its name, column definitions and rows in storage
order, each row holding one cell per column. -/
structure TableData where
  name : String
  cols : List Column
  rows : List (List Cell)
  deriving DecidableEq, Repr

/-- The database: sequences with their next value, and tables. -/
structure MemDB where
  seqs : List (String × Int)
  tables : List TableData
  deriving DecidableEq, Repr

/-- A database with no objects: what `sql.Open("duckdb", "")` gives. -/
def MemDB.empty : MemDB := ⟨[], []⟩

/-- The next value of a sequence, when it exists. -/
def findSeq (name : String) : List (String × Int) → Option Int
  | [] => none
  | (n, v) :: rest => if n = name then some v else findSeq name rest

/-- Set the next value of a sequence. -/
def setSeq (name : String) (v : Int) : List (String × Int) → List (String × Int)
  | [] => []
  | (n, w) :: rest => if n = name then (n, v) :: rest else (n, w) :: setSeq name v rest

/-- A table by name, when it exists. -/
def findTable (name : String) : List TableData → Option TableData
  | [] => none
  | t :: rest => if t.name = name then some t else findTable name rest

/-- Replace the rows of a table. -/
def setRows (name : String) (rows : List (List Cell)) : List TableData → List TableData
  | [] => []
  | t :: rest => if t.name = name then { t with rows := rows } :: rest else t :: setRows name rows rest

/-- Whether a column of that name is defined. -/
def hasColumn (cols : List Column) (name : String) : Bool :=
  cols.any (fun c => c.name == name)

/-- The type of a column, when defined. -/
def columnType : List Column → String → Option ColType
  | [], _ => none
  | c :: rest, name => if c.name = name then some c.ty else columnType rest name

/-- The cell of a row under a column name (NULL when there is none). -/
def cellOf : List Column → List Cell → String → Cell
  | c :: cs, v :: vs, name => if c.name = name then v else cellOf cs vs name
  | _, _, _ => none

/-- Whether a value fits a column type. -/
def typeOk : ColType → Value → Bool
  | ColType.integer, Value.int _ => true
  | ColType.varchar, Value.str _ => true
  | _, _ => false

/-- The value of an expression, taking placeholders from the front of the
parameters still unbound. -/
def bindExpr : SqlExpr → List Value → Option (Value × List Value)
  | SqlExpr.param, v :: rest => some (v, rest)
  | SqlExpr.param, [] => none
  | SqlExpr.int i, args => some (Value.int i, args)
  | SqlExpr.str s, args => some (Value.str s, args)

/-- The values of expressions in text order, and the parameters left over. -/
def bindExprs : List SqlExpr → List Value → Option (List Value × List Value)
  | [], args => some ([], args)
  | e :: es, args =>
    match bindExpr e args with
    | none => none
    | some (v, rest) =>
      match bindExprs es rest with
      | none => none
      | some (vs, tail) => some (v :: vs, tail)

/-- A bound condition: column, operator, value (`none`: no `WHERE`). -/
abbrev BoundCond := Option (String × CmpOp × Value)

/-- Bind the placeholder of a condition. -/
def bindCond : Option Cond → List Value → Option (BoundCond × List Value)
  | none, args => some (none, args)
  | some c, args =>
    match bindExpr c.rhs args with
    | none => none
    | some (v, rest) => some (some (c.col, c.op, v), rest)

/-- Lexicographic order of texts by character code. -/
def charsLe : List Char → List Char → Bool
  | [], _ => true
  | _ :: _, [] => false
  | a :: as, b :: bs => a.toNat < b.toNat || (a.toNat == b.toNat && charsLe as bs)

/-- Whether `a ≤ b`, for two integers or two texts. -/
def valueLe : Value → Value → Bool
  | Value.int a, Value.int b => a ≤ b
  | Value.str a, Value.str b => charsLe a.toList b.toList
  | _, _ => false

/-- A comparison of two values. -/
def cmpValues : CmpOp → Value → Value → Bool
  | CmpOp.eq, a, b => a == b
  | CmpOp.ne, a, b => a != b
  | CmpOp.le, a, b => valueLe a b
  | CmpOp.ge, a, b => valueLe b a
  | CmpOp.lt, a, b => valueLe a b && a != b
  | CmpOp.gt, a, b => valueLe b a && a != b

/-- Whether a row satisfies a bound condition; a NULL cell satisfies none. -/
def condHolds (cols : List Column) (row : List Cell) : BoundCond → Bool
  | none => true
  | some (c, op, v) =>
    match cellOf cols row c with
    | some x => cmpValues op x v
    | none => false

/-- Whether a bound condition names a column of the table and compares it with
a value of its type. -/
def condOk (cols : List Column) : BoundCond → Bool
  | none => true
  | some (c, _, v) =>
    match columnType cols c with
    | some ty => typeOk ty v
    | none => false

/-- The cells of a new row, column by column: the value given for the column,
else the next value of its default sequence (which advances), else NULL. -/
def buildRow : List (String × Int) → List Column → List (String × Value) →
    Except GoError (List (String × Int) × List Cell)
  | seqs, [], _ => .ok (seqs, [])
  | seqs, c :: cs, given =>
    match given.lookup c.name with
    | some v =>
      if typeOk c.ty v then
        match buildRow seqs cs given with
        | .ok (seqs1, cells) => .ok (seqs1, some v :: cells)
        | .error e => .error e
      else .error (GoError.storage ("Conversion Error: column " ++ c.name))
    | none =>
      match c.dflt with
      | some sq =>
        match findSeq sq seqs with
        | some n =>
          match buildRow (setSeq sq (n + 1) seqs) cs given with
          | .ok (seqs1, cells) => .ok (seqs1, some (Value.int n) :: cells)
          | .error e => .error e
        | none => .error (GoError.storage ("Catalog Error: sequence does not exist: " ++ sq))
      | none =>
        match buildRow seqs cs given with
        | .ok (seqs1, cells) => .ok (seqs1, none :: cells)
        | .error e => .error e

/-- Whether a row holds NULL in a `NOT NULL` column. -/
def nullViolation : List Column → List Cell → Bool
  | c :: cs, v :: vs => (c.notNull && v.isNone) || nullViolation cs vs
  | _, _ => false

/-- The cells of a row in the primary-key columns. -/
def keyOf : List Column → List Cell → List Cell
  | c :: cs, v :: vs => if c.primaryKey then v :: keyOf cs vs else keyOf cs vs
  | _, _ => []

/-- Whether a table has a primary key. -/
def hasKey (cols : List Column) : Bool := cols.any (fun c => c.primaryKey)

/-- Whether some stored row has the primary key `key`. -/
def keyTaken (cols : List Column) (rows : List (List Cell)) (key : List Cell) : Bool :=
  hasKey cols && rows.any (fun r => keyOf cols r == key)

/-- Whether the primary keys of the rows are pairwise different. -/
def keysDistinct (cols : List Column) : List (List Cell) → Bool
  | [] => true
  | r :: rest => !keyTaken cols rest (keyOf cols r) && keysDistinct cols rest

/-- A row with the given columns overwritten. -/
def assign : List Column → List Cell → List (String × Value) → List Cell
  | c :: cs, v :: vs, sets =>
    (match sets.lookup c.name with
      | some w => some w
      | none => v) :: assign cs vs sets
  | _, _, _ => []

/-- Whether every assignment names a column and gives a value of its type. -/
def setsOk (cols : List Column) : List (String × Value) → Bool
  | [] => true
  | (c, v) :: rest =>
    (match columnType cols c with
      | some ty => typeOk ty v
      | none => false) && setsOk cols rest

/-- Number of rows that satisfy a bound condition. -/
def countMatching (cols : List Column) (cond : BoundCond) (rows : List (List Cell)) : Int :=
  ((rows.filter (fun r => condHolds cols r cond)).length : Int)

/-- Whether row `a` may stand before row `b` under `ORDER BY col`. -/
def rowLe (cols : List Column) (col : String) (desc : Bool) (a b : List Cell) : Bool :=
  match cellOf cols a col, cellOf cols b col with
  | some x, some y => if desc then valueLe y x else valueLe x y
  | some _, none => true
  | none, some _ => false
  | none, none => true

/-- Insert a row into a sorted list, after the rows that may stand before it. -/
def insertSorted (le : List Cell → List Cell → Bool) (r : List Cell) :
    List (List Cell) → List (List Cell)
  | [] => [r]
  | x :: rest => if le x r then x :: insertSorted le r rest else r :: x :: rest

/-- Stable insertion sort. -/
def sortRows (le : List Cell → List Cell → Bool) : List (List Cell) → List (List Cell)
  | [] => []
  | r :: rest => insertSorted le r (sortRows le rest)

/-- The outcome of one statement: rows affected, or the rows selected. -/
inductive Outcome where
  | affected (n : Int)
  | rows (rs : List (List Cell))
  deriving DecidableEq, Repr

/-- Execute one parsed statement with its parameters. -/
def execStmt (db : MemDB) : Statement → List Value → MemDB × Except GoError Outcome
  | Statement.createSequence ine name start, args =>
    match args with
    | _ :: _ => (db, .error (.storage "Invalid Input Error: unexpected parameters"))
    | [] =>
      match findSeq name db.seqs with
      | some _ =>
        if ine then (db, .ok (.affected 0))
        else (db, .error (.storage ("Catalog Error: sequence already exists: " ++ name)))
      | none => (⟨db.seqs ++ [(name, start)], db.tables⟩, .ok (.affected 0))
  | Statement.createTable ine name cols, args =>
    match args with
    | _ :: _ => (db, .error (.storage "Invalid Input Error: unexpected parameters"))
    | [] =>
      match findTable name db.tables with
      | some _ =>
        if ine then (db, .ok (.affected 0))
        else (db, .error (.storage ("Catalog Error: table already exists: " ++ name)))
      | none =>
        if cols.all (fun c => match c.dflt with
            | some sq => (findSeq sq db.seqs).isSome
            | none => true) then
          (⟨db.seqs, db.tables ++ [⟨name, cols, []⟩]⟩, .ok (.affected 0))
        else (db, .error (.storage "Catalog Error: sequence does not exist"))
  | Statement.insert table cols vals, args =>
    match findTable table db.tables with
    | none => (db, .error (.storage ("Catalog Error: table does not exist: " ++ table)))
    | some t =>
      match bindExprs vals args with
      | some (vs, []) =>
        if cols.length = vs.length && cols.all (hasColumn t.cols) then
          match buildRow db.seqs t.cols (cols.zip vs) with
          | .error e => (db, .error e)
          | .ok (seqs1, row) =>
            if nullViolation t.cols row then
              (⟨seqs1, db.tables⟩, .error (.storage "Constraint Error: NOT NULL constraint failed"))
            else if keyTaken t.cols t.rows (keyOf t.cols row) then
              (⟨seqs1, db.tables⟩, .error (.storage "Constraint Error: duplicate key"))
            else
              (⟨seqs1, setRows table (t.rows ++ [row]) db.tables⟩, .ok (.affected 1))
        else (db, .error (.storage "Binder Error: column list does not fit"))
      | _ => (db, .error (.storage "Invalid Input Error: parameter count mismatch"))
  | Statement.update table sets cond, args =>
    match findTable table db.tables with
    | none => (db, .error (.storage ("Catalog Error: table does not exist: " ++ table)))
    | some t =>
      match bindExprs (sets.map Prod.snd) args with
      | none => (db, .error (.storage "Invalid Input Error: parameter count mismatch"))
      | some (vs, rest) =>
        match bindCond cond rest with
        | some (bc, []) =>
          if setsOk t.cols ((sets.map Prod.fst).zip vs) && condOk t.cols bc then
            if keysDistinct t.cols (t.rows.map (fun r =>
                if condHolds t.cols r bc then assign t.cols r ((sets.map Prod.fst).zip vs) else r)) then
              (⟨db.seqs, setRows table (t.rows.map (fun r =>
                  if condHolds t.cols r bc then assign t.cols r ((sets.map Prod.fst).zip vs) else r))
                  db.tables⟩,
               .ok (.affected (countMatching t.cols bc t.rows)))
            else (db, .error (.storage "Constraint Error: duplicate key"))
          else (db, .error (.storage "Binder Error: column or type does not fit"))
        | _ => (db, .error (.storage "Invalid Input Error: parameter count mismatch"))
  | Statement.delete table cond, args =>
    match findTable table db.tables with
    | none => (db, .error (.storage ("Catalog Error: table does not exist: " ++ table)))
    | some t =>
      match bindCond cond args with
      | some (bc, []) =>
        if condOk t.cols bc then
          (⟨db.seqs, setRows table (t.rows.filter (fun r => !condHolds t.cols r bc)) db.tables⟩,
           .ok (.affected (countMatching t.cols bc t.rows)))
        else (db, .error (.storage "Binder Error: column or type does not fit"))
      | _ => (db, .error (.storage "Invalid Input Error: parameter count mismatch"))
  | Statement.select cols table cond order, args =>
    match findTable table db.tables with
    | none => (db, .error (.storage ("Catalog Error: table does not exist: " ++ table)))
    | some t =>
      match bindCond cond args with
      | some (bc, []) =>
        if cols.all (hasColumn t.cols) && condOk t.cols bc &&
            (match order with
              | some (c, _) => hasColumn t.cols c
              | none => true) then
          (db, .ok (.rows (((match order with
              | some (c, desc) => sortRows (rowLe t.cols c desc)
                  (t.rows.filter (fun r => condHolds t.cols r bc))
              | none => t.rows.filter (fun r => condHolds t.cols r bc))).map
            (fun r => cols.map (cellOf t.cols r)))))
        else (db, .error (.storage "Binder Error: column or type does not fit"))
      | _ => (db, .error (.storage "Invalid Input Error: parameter count mismatch"))

/-- Execute statements in order; the parameters go to the last one.  The first
failure ends the run and what was done before it stays done. -/
def runScript : MemDB → List Statement → List Value → MemDB × Except GoError Outcome
  | db, [], _ => (db, .error (.storage "Invalid Input Error: no statement"))
  | db, [s], args => execStmt db s args
  | db, s :: rest, args =>
    match execStmt db s [] with
    | (db1, .error e) => (db1, .error e)
    | (db1, .ok _) => runScript db1 rest args

/-- Run a statement text. -/
def runSQL (db : MemDB) (sql : String) (args : List Value) : MemDB × Except GoError Outcome :=
  match parseScript sql with
  | none => (db, .error (.storage "Parser Error: syntax error"))
  | some stmts => runScript db stmts args

/-- Storage model of `Exec`: the statements of the text are run; a result that
is a row set counts as no row affected. -/
def memExec (db : MemDB) (sql : String) (args : List Value) : MemDB × Except GoError ExecResult :=
  match runSQL db sql args with
  | (db1, .error e) => (db1, .error e)
  | (db1, .ok (.affected n)) => (db1, .ok ⟨.ok n⟩)
  | (db1, .ok (.rows _)) => (db1, .ok ⟨.ok 0⟩)

/-- Text as a decimal integer with an optional minus sign (`strconv.ParseInt`). -/
def parseIntText (s : String) : Option Int :=
  match s.toList with
  | '-' :: ch :: rest => (parseNatChars (ch :: rest) 0).map (fun n => - Int.ofNat n)
  | ch :: rest => (parseNatChars (ch :: rest) 0).map Int.ofNat
  | [] => none

/-- `Scan` into an `*int` destination. -/
def scanInt : Cell → Except GoError Int
  | some (Value.int i) => .ok i
  | some (Value.str s) =>
    match parseIntText s with
    | some i => .ok i
    | none => .error (.storage "sql: Scan error: converting driver.Value type string to a int")
  | some (Value.bool _) =>
    .error (.storage "sql: Scan error: converting driver.Value type bool to a int")
  | none => .error (.storage "sql: Scan error: converting NULL to int is unsupported")

/-- `Scan` into a `*string` destination. -/
def scanString : Cell → Except GoError String
  | some (Value.int i) => .ok (toString i)
  | some (Value.str s) => .ok s
  | some (Value.bool b) => .ok (if b then "true" else "false")
  | none => .error (.storage "sql: Scan error: converting NULL to string is unsupported")

/-- `Scan(&user.ID, &user.Name, &user.Age)` on one result row. -/
def scanUser : List Cell → Except GoError User
  | [a, b, c] =>
    match scanInt a, scanString b, scanInt c with
    | .ok id, .ok name, .ok age => .ok ⟨id, name, age⟩
    | .error e, _, _ => .error e
    | _, .error e, _ => .error e
    | _, _, .error e => .error e
  | _ => .error (.storage "sql: expected 3 destination arguments in Scan")

/-- Storage model of `Query`: each result row is scanned into a `User`; a
statement that returns no row set yields the single row holding its count. -/
def memQuery (db : MemDB) (sql : String) (args : List Value) : MemDB × Except GoError Rows :=
  match runSQL db sql args with
  | (db1, .error e) => (db1, .error e)
  | (db1, .ok (.rows rs)) => (db1, .ok ⟨rs.map scanUser, none⟩)
  | (db1, .ok (.affected n)) => (db1, .ok ⟨[scanUser [some (Value.int n)]], none⟩)

/-- Storage model of `QueryRow(...).Scan(...)`: the scan of the first row, or
`sql.ErrNoRows` when there is none. -/
def memQueryRow (db : MemDB) (sql : String) (args : List Value) : MemDB × Except GoError User :=
  match memQuery db sql args with
  | (db1, .error e) => (db1, .error e)
  | (db1, .ok rows) =>
    match rows.scans with
    | [] => (db1, .error GoError.errNoRows)
    | r :: _ => (db1, r)

/-- The storage model as a driver. -/
def memDriver : Driver MemDB := ⟨memExec, memQuery, memQueryRow⟩

/-- The columns that the schema statement of the program defines. -/
def usersCols : List Column :=
  [⟨"ID", ColType.integer, true, true, some "USER_ID_SEQ"⟩,
   ⟨"NAME", ColType.varchar, false, true, none⟩,
   ⟨"AGE", ColType.integer, false, true, none⟩]

/-- A `User` as a stored row of `users`. -/
def userCells (u : User) : List Cell :=
  [some (Value.int u.ID), some (Value.str u.Name), some (Value.int u.Age)]

/-- The database holding the sequence `user_id_seq` at `next` and the table
`users` with the given rows. -/
def usersDB (next : Int) (rows : List User) : MemDB :=
  ⟨[("USER_ID_SEQ", next)], [⟨"USERS", usersCols, rows.map userCells⟩]⟩

/-- Storage state with a fault script: each call consumes the head of the
script, and an entry `some e` makes that call report `e` and leave the data
untouched. -/
structure FaultDB where
  db : MemDB
  script : List (Option GoError)

/-- The storage model with injected faults. -/
def faultyDriver : Driver FaultDB where
  exec s sql args :=
    match s.script with
    | some e :: rest => (⟨s.db, rest⟩, .error e)
    | none :: rest => (⟨(memExec s.db sql args).1, rest⟩, (memExec s.db sql args).2)
    | [] => (⟨(memExec s.db sql args).1, []⟩, (memExec s.db sql args).2)
  query s sql args :=
    match s.script with
    | some e :: rest => (⟨s.db, rest⟩, .error e)
    | none :: rest => (⟨(memQuery s.db sql args).1, rest⟩, (memQuery s.db sql args).2)
    | [] => (⟨(memQuery s.db sql args).1, []⟩, (memQuery s.db sql args).2)
  queryRow s sql args :=
    match s.script with
    | some e :: rest => (⟨s.db, rest⟩, .error e)
    | none :: rest => (⟨(memQueryRow s.db sql args).1, rest⟩, (memQueryRow s.db sql args).2)
    | [] => (⟨(memQueryRow s.db sql args).1, []⟩, (memQueryRow s.db sql args).2)

/-! ### Vocabulary used to state properties of the statements issued -/

/-- Number of `?` placeholders in a statement text. -/
def placeholders (sql : String) : Nat := sql.toList.count '?'

/-- Whether the characters `xs` begin the characters `ys`. -/
def startsWith : List Char → List Char → Bool
  | [], _ => true
  | _ :: _, [] => false
  | x :: xs, y :: ys => x == y && startsWith xs ys

/-- Whether the characters `word` occur contiguously somewhere in `text`. -/
def hasInfix (word : List Char) : List Char → Bool
  | [] => word.isEmpty
  | y :: ys => startsWith word (y :: ys) || hasInfix word ys

/-- Whether a statement text mentions a word, letter case ignored. -/
def mentions (sql word : String) : Bool :=
  hasInfix (word.toList.map Char.toUpper) (sql.toList.map Char.toUpper)

/-- Split characters at commas, dropping blanks. -/
def splitCommas : List Char → List Char → List String
  | cur, [] => [String.mk cur.reverse]
  | cur, ch :: rest =>
    if ch = ',' then String.mk cur.reverse :: splitCommas [] rest
    else if ch = ' ' then splitCommas cur rest
    else splitCommas (ch :: cur) rest

/-- The column names between the first `(` and the following `)` of an
`INSERT` statement text. -/
def insertColumns (sql : String) : List String :=
  splitCommas [] (((sql.toList.dropWhile (fun ch => ch != '(')).drop 1).takeWhile (fun ch => ch != ')'))

/-- The call that `insertUsers` issues for one row. -/
def insertCall (user : String × Int) : Call :=
  Call.exec insertSQL [Value.str user.1, Value.int user.2]

/-- Storage state after the `Exec`s for the given rows, in order. -/
def afterInserts {σ : Type} (d : Driver σ) : σ → List (String × Int) → σ
  | s, [] => s
  | s, user :: rest =>
    afterInserts d (d.exec s insertSQL [Value.str user.1, Value.int user.2]).1 rest

/-- Whether an `Exec` outcome is a success. -/
def execOk : Except GoError ExecResult → Bool
  | .ok _ => true
  | .error _ => false

/-- Whether the `Exec`s for the given rows, issued in order from state `s`, all
succeed. -/
def allOk {σ : Type} (d : Driver σ) : σ → List (String × Int) → Bool
  | _, [] => true
  | s, user :: rest =>
    execOk (d.exec s insertSQL [Value.str user.1, Value.int user.2]).2 &&
      allOk d (d.exec s insertSQL [Value.str user.1, Value.int user.2]).1 rest

/-- Rows affected as reported by an `Exec` outcome (0 when it reports none). -/
def execAffected : Except GoError ExecResult → Int
  | .ok ⟨.ok n⟩ => n
  | _ => 0

/-- Total of the affected-row counts reported by the `Exec`s for the given
rows, issued in order from state `s`. -/
def insertAffected {σ : Type} (d : Driver σ) : σ → List (String × Int) → Int
  | _, [] => 0
  | s, user :: rest =>
    execAffected (d.exec s insertSQL [Value.str user.1, Value.int user.2]).2 +
      insertAffected d (d.exec s insertSQL [Value.str user.1, Value.int user.2]).1 rest

/-- Whether every scan outcome of a result is a success. -/
def scansOk : List (Except GoError User) → Bool
  | [] => true
  | .ok _ :: rest => scansOk rest
  | .error _ :: _ => false

/-- The handle of `main` on the storage model started empty, after the
connection message. -/
def afterConnect : Conn MemDB :=
  print (Conn.fresh MemDB.empty) "✅ Successfully connected to DuckDB\n"

/-- The handle of `main` after `createTable` and its message. -/
def afterCreate : Conn MemDB :=
  print (createTable memDriver afterConnect).1 "✅ Table created successfully\n"

/-- The handle of `main` after `insertUsers` and its message. -/
def afterInsert : Conn MemDB :=
  print (insertUsers memDriver afterCreate).1 "✅ Users inserted successfully\n"

/-- The handle of `main` just before `updateUser`. -/
def beforeUpdate : Conn MemDB :=
  (queryUserByID memDriver (queryAllUsers memDriver afterInsert).1 1).1

/-- The handle of `main` after `updateUser` and its message. -/
def afterUpdate : Conn MemDB :=
  print (updateUser memDriver beforeUpdate 1 "Alice Updated" 26).1 "✅ User updated successfully\n"

/-- The handle of `main` just before `deleteUser`. -/
def beforeDelete : Conn MemDB := (queryUserByID memDriver afterUpdate 1).1

/-- The handle of `main` just before the final `queryAllUsers`. -/
def beforeFinalList : Conn MemDB :=
  print (print (deleteUser memDriver beforeDelete 2).1 "✅ User deleted successfully\n")
    "\n=== Final user list ===\n"

end Official

namespace GormDriverV1

/-- The struct `Product` (lines 13-22).  The two `time.Time` fields are set by
GORM from the clock and never read by the program; they are left out. -/
structure Product where
  ID : Nat
  Code : String
  Name : String
  Price : Nat
  Category : String
  InStock : Bool
  deriving DecidableEq, Repr

/-- The struct `User` (lines 25-33), without its two `time.Time` fields. -/
structure User where
  ID : Nat
  Name : String
  Email : String
  Age : Int
  Active : Bool
  deriving DecidableEq, Repr

/-- The zero value `Product{}`. -/
def Product.zero : Product := ⟨0, "", "", 0, "", false⟩

/-- A `float64` result, carried as its `%.2f` rendering, which is all the
program does with it. -/
structure Float64 where
  fmt2 : String
  deriving DecidableEq, Repr

/-- The local struct `Result` of `demonstrateAdvancedQueries` (lines 306-310). -/
structure PriceStats where
  AvgPrice : Float64
  MaxPrice : Nat
  MinPrice : Nat
  deriving DecidableEq, Repr

/-- The local struct `CategoryStats` (lines 320-324). -/
structure CategoryStats where
  Category : String
  Count : Int
  AvgPrice : Float64
  deriving DecidableEq, Repr

/-- The table a statement addresses, fixed by the Go type it is given. -/
inductive Table where
  | products
  | users
  deriving DecidableEq, Repr

/-- The finisher method that sends a statement to the database. -/
inductive Op where
  | create
  | find
  | first
  | update
  | updates
  | delete
  | count
  | scan
  deriving DecidableEq, Repr

/-- What a finisher is given to write. -/
inductive Payload where
  | none
  | product (p : Product)
  | products (ps : List Product)
  | users (us : List User)
  | column (name : String) (v : Value)
  | fields (kvs : List (String × Value))
  deriving DecidableEq, Repr

/-- A statement as built by the chain methods: `Where` clauses in call order,
the inline primary-key arguments of the finisher (`First(&p, 1)`,
`Delete(&Product{}, 4)`), the primary key held by the value handed to the
finisher (`Delete(&productToDelete)`), and the `Select`, `Group`, `Having`,
`Order`, `Limit`, `Offset` settings. -/
structure Stmt where
  op : Op
  table : Table
  wheres : List (String × List Value) := []
  inlinePK : List Value := []
  valuePK : Nat := 0
  payload : Payload := Payload.none
  selects : Option String := none
  group : Option String := none
  having : Option String := none
  order : Option String := none
  limit : Option Int := none
  offset : Option Int := none
  deriving DecidableEq, Repr

/-- A statement is restricted when GORM renders it with a `WHERE`: it has a
`Where` clause, an inline primary-key argument, or a value whose primary key is
not zero. -/
def Stmt.restricted (s : Stmt) : Bool :=
  !s.wheres.isEmpty || !s.inlinePK.isEmpty || s.valuePK != 0

/-- What a finisher wrote into its destination. -/
inductive Dest where
  | none
  | product (p : Product)
  | products (ps : List Product)
  | users (us : List User)
  | count (n : Int)
  | priceStats (r : PriceStats)
  | categoryStats (l : List CategoryStats)

/-- The `*gorm.DB` a finisher returns: `Error`, `RowsAffected`, and what was
written into the destination. -/
structure Res where
  error : Option GoError
  rowsAffected : Int
  dest : Dest

/-- The database behind `*gorm.DB`, over an abstract storage state. -/
structure Engine (σ : Type) where
  run : σ → Stmt → σ × Res
  autoMigrate : σ → List Table → σ × Option GoError

/-- One request handed to the database. -/
inductive Call where
  | migrate (tables : List Table)
  | stmt (s : Stmt)
  deriving DecidableEq, Repr

/-- The database handle: storage state, requests issued so far and text
printed so far (both oldest first). -/
structure Conn (σ : Type) where
  st : σ
  calls : List Call
  out : List String

/-- A handle on storage state `s` with nothing issued and nothing printed. -/
def Conn.fresh {σ : Type} (s : σ) : Conn σ := ⟨s, [], []⟩

/-- Send one statement. -/
def run {σ : Type} (e : Engine σ) (c : Conn σ) (s : Stmt) : Conn σ × Res :=
  let r := e.run c.st s
  ({ c with st := r.1, calls := c.calls ++ [Call.stmt s] }, r.2)

/-- `fmt.Print` family: append one piece of text to standard output. -/
def print {σ : Type} (c : Conn σ) (s : String) : Conn σ :=
  { c with out := c.out ++ [s] }

/-- Print a list of lines in order. -/
def printAll {σ : Type} (c : Conn σ) (l : List String) : Conn σ :=
  { c with out := c.out ++ l }

/-- The verb `%t`. -/
def fmtBool (b : Bool) : String := if b then "true" else "false"

/-- The destination as a `Product`, left at `dflt` when nothing was written. -/
def Dest.productOr (dflt : Product) : Dest → Product
  | .product p => p
  | _ => dflt

/-- The destination as a `[]Product`, left nil when nothing was written. -/
def Dest.productList : Dest → List Product
  | .products ps => ps
  | _ => []

/-- The destination as a `[]User`, left nil when nothing was written. -/
def Dest.userList : Dest → List User
  | .users us => us
  | _ => []

/-- The destination as an `int64` count, left 0 when nothing was written. -/
def Dest.countOr0 : Dest → Int
  | .count n => n
  | _ => 0

/-- The destination as a `Result`, left zero when nothing was written. -/
def Dest.priceStatsOr0 : Dest → PriceStats
  | .priceStats r => r
  | _ => ⟨⟨"0.00"⟩, 0, 0⟩

/-- The destination as a `[]CategoryStats`, left nil when nothing was written. -/
def Dest.categoryStatsList : Dest → List CategoryStats
  | .categoryStats l => l
  | _ => []

/-- Lines 66-78.  `opened` is what `gorm.Open(duckdb.Open(":memory:"), ...)`
returned. -/
def connectDatabase {σ : Type} (opened : Except GoError σ) : Except GoError (Conn σ) :=
  match opened with
  | .error err => .error (GoError.wrapf "failed to connect to DuckDB: " err)
  | .ok s => .ok (Conn.fresh s)

/-- Lines 81-88. -/
def migrateDatabase {σ : Type} (e : Engine σ) (c : Conn σ) : Conn σ × Option GoError :=
  let r := e.autoMigrate c.st [Table.products, Table.users]
  let c1 : Conn σ := { c with st := r.1, calls := c.calls ++ [Call.migrate [Table.products, Table.users]] }
  match r.2 with
  | some err => (c1, some (GoError.wrapf "failed to migrate database: " err))
  | none => (c1, none)

/-- The literal `product1` (lines 122-128). -/
def product1 : Product := ⟨0, "P001", "Laptop", 1200, "Electronics", true⟩

/-- The literal `products` (lines 137-141). -/
def batchProducts : List Product :=
  [⟨0, "P002", "Mouse", 25, "Electronics", true⟩,
   ⟨0, "P003", "Keyboard", 75, "Electronics", true⟩,
   ⟨0, "P004", "Monitor", 300, "Electronics", false⟩]

/-- The literal `users` (lines 150-154). -/
def batchUsers : List User :=
  [⟨0, "Alice Johnson", "alice@example.com", 28, true⟩,
   ⟨0, "Bob Smith", "bob@example.com", 35, true⟩,
   ⟨0, "Charlie Brown", "charlie@example.com", 42, false⟩]

/-- Lines 118-163. -/
def createRecords {σ : Type} (e : Engine σ) (c : Conn σ) : Conn σ × Option GoError :=
  let c := print c "\n--- CREATE Operations ---\n"
  match run e c { op := Op.create, table := Table.products, payload := Payload.product product1 } with
  | (c, ⟨some err, _, _⟩) => (c, some (GoError.wrapf "failed to create product: " err))
  | (c, ⟨none, _, dest⟩) =>
  let c := print c ("✅ Created product with ID: " ++ toString (dest.productOr product1).ID ++ "\n")
  match run e c { op := Op.create, table := Table.products, payload := Payload.products batchProducts } with
  | (c, ⟨some err, _, _⟩) => (c, some (GoError.wrapf "failed to create products batch: " err))
  | (c, ⟨none, rowsAffected, _⟩) =>
  let c := print c ("✅ Created " ++ toString rowsAffected ++ " products in batch\n")
  match run e c { op := Op.create, table := Table.users, payload := Payload.users batchUsers } with
  | (c, ⟨some err, _, _⟩) => (c, some (GoError.wrapf "failed to create users: " err))
  | (c, ⟨none, rowsAffected, _⟩) =>
  let c := print c ("✅ Created " ++ toString rowsAffected ++ " users\n")
  (c, none)

/-- The text printed for one product in `readRecords` (lines 178-179). -/
def fmtProduct (p : Product) : String :=
  "  ID: " ++ toString p.ID ++ ", Code: " ++ p.Code ++ ", Name: " ++ p.Name ++ ", Price: $" ++
    toString p.Price ++ ", In Stock: " ++ fmtBool p.InStock ++ "\n"

/-- The text printed for one user in `readRecords` (lines 212-213). -/
def fmtUser (u : User) : String :=
  "  ID: " ++ toString u.ID ++ ", Name: " ++ u.Name ++ ", Email: " ++ u.Email ++ ", Age: " ++
    toString u.Age ++ "\n"

/-- The statement `db.Find(&products)` (line 171). -/
def findAllProducts : Stmt := { op := Op.find, table := Table.products }

/-- The statement `db.First(&product, 1)` (line 184). -/
def firstProduct1 : Stmt := { op := Op.first, table := Table.products, inlinePK := [Value.int 1] }

/-- The statement `db.Where("price > ?", 50).Find(&expensiveProducts)` (line 197). -/
def findExpensive : Stmt :=
  { op := Op.find, table := Table.products, wheres := [("price > ?", [Value.int 50])] }

/-- The statement `db.Where("active = ?", true).Limit(10).Offset(0).Find(&users)`
(line 205). -/
def findActiveUsers : Stmt :=
  { op := Op.find, table := Table.users, wheres := [("active = ?", [Value.bool true])],
    limit := some 10, offset := some 0 }

/-- The part of `readRecords` after the lookup of product 1 (lines 195-216). -/
def readRecordsTail {σ : Type} (e : Engine σ) (c : Conn σ) : Conn σ × Option GoError :=
  match run e c findExpensive with
  | (c, ⟨some err, _, _⟩) => (c, some (GoError.wrapf "failed to find expensive products: " err))
  | (c, ⟨none, _, dest⟩) =>
  let c := print c ("\n💰 Expensive Products (>$50): " ++ toString dest.productList.length ++ " found\n")
  match run e c findActiveUsers with
  | (c, ⟨some err, _, _⟩) => (c, some (GoError.wrapf "failed to find active users: " err))
  | (c, ⟨none, _, dest⟩) =>
  let c := print c ("\n👥 Active Users (" ++ toString dest.userList.length ++ " found):\n")
  let c := printAll c (dest.userList.map fmtUser)
  (c, none)

/-- Lines 166-217. -/
def readRecords {σ : Type} (e : Engine σ) (c : Conn σ) : Conn σ × Option GoError :=
  let c := print c "\n--- READ Operations ---\n"
  match run e c findAllProducts with
  | (c, ⟨some err, _, _⟩) => (c, some (GoError.wrapf "failed to find products: " err))
  | (c, ⟨none, _, dest⟩) =>
  let c := print c ("\n📦 All Products (" ++ toString dest.productList.length ++ " found):\n")
  let c := printAll c (dest.productList.map fmtProduct)
  match run e c firstProduct1 with
  | (c, ⟨some err, _, _⟩) =>
    if err = GoError.errRecordNotFound then
      readRecordsTail e (print c "❌ Product with ID 1 not found\n")
    else
      (c, some (GoError.wrapf "failed to find product by ID: " err))
  | (c, ⟨none, _, dest⟩) =>
    let product := dest.productOr Product.zero
    readRecordsTail e
      (print c ("\n🔍 Product by ID 1: " ++ product.Name ++ " - $" ++ toString product.Price ++ "\n"))

/-- The statement `db.Model(&Product{}).Where("code = ?", "P001").Update("price", 1100)`
(line 224). -/
def updatePriceP001 : Stmt :=
  { op := Op.update, table := Table.products, wheres := [("code = ?", [Value.str "P001"])],
    payload := Payload.column "price" (Value.int 1100) }

/-- The statement `db.Model(&Product{}).Where("code = ?", "P002").Updates(Product{...})`
(lines 231-234). -/
def updatesP002 : Stmt :=
  { op := Op.updates, table := Table.products, wheres := [("code = ?", [Value.str "P002"])],
    payload := Payload.product ⟨0, "", "Wireless Mouse", 35, "", false⟩ }

/-- The statement `db.Model(&User{}).Where("email = ?", ...).Updates(map...)`
(lines 241-244). -/
def updatesAlice : Stmt :=
  { op := Op.updates, table := Table.users,
    wheres := [("email = ?", [Value.str "alice@example.com"])],
    payload := Payload.fields [("age", Value.int 29), ("active", Value.bool true)] }

/-- The statement `db.Model(&Product{}).Where("category = ?", "Electronics").Update("in_stock", true)`
(line 251). -/
def updateInStock : Stmt :=
  { op := Op.update, table := Table.products,
    wheres := [("category = ?", [Value.str "Electronics"])],
    payload := Payload.column "in_stock" (Value.bool true) }

/-- Lines 220-258. -/
def updateRecords {σ : Type} (e : Engine σ) (c : Conn σ) : Conn σ × Option GoError :=
  let c := print c "\n--- UPDATE Operations ---\n"
  match run e c updatePriceP001 with
  | (c, ⟨some err, _, _⟩) => (c, some (GoError.wrapf "failed to update product price: " err))
  | (c, ⟨none, rowsAffected, _⟩) =>
  let c := print c ("✅ Updated price for " ++ toString rowsAffected ++ " product(s)\n")
  match run e c updatesP002 with
  | (c, ⟨some err, _, _⟩) => (c, some (GoError.wrapf "failed to update product: " err))
  | (c, ⟨none, rowsAffected, _⟩) =>
  let c := print c ("✅ Updated " ++ toString rowsAffected ++ " product(s) with multiple fields\n")
  match run e c updatesAlice with
  | (c, ⟨some err, _, _⟩) => (c, some (GoError.wrapf "failed to update user: " err))
  | (c, ⟨none, rowsAffected, _⟩) =>
  let c := print c ("✅ Updated " ++ toString rowsAffected ++ " user(s) using map\n")
  match run e c updateInStock with
  | (c, ⟨some err, _, _⟩) => (c, some (GoError.wrapf "failed to batch update products: " err))
  | (c, ⟨none, rowsAffected, _⟩) =>
  let c := print c ("✅ Batch updated " ++ toString rowsAffected ++ " product(s)\n")
  (c, none)

/-- The lookup `db.Where("code = ?", "P003").First(&productToDelete)` of
`deleteRecords` (line 280). -/
def lookupP003 : Stmt :=
  { op := Op.first, table := Table.products, wheres := [("code = ?", [Value.str "P003"])] }

/-- The statement `db.Delete(&Product{}, 4)` (line 265). -/
def deleteProduct4 : Stmt := { op := Op.delete, table := Table.products, inlinePK := [Value.int 4] }

/-- The statement `db.Where("active = ?", false).Delete(&User{})` (line 272). -/
def deleteInactiveUsers : Stmt :=
  { op := Op.delete, table := Table.users, wheres := [("active = ?", [Value.bool false])] }

/-- The statement `db.Delete(&productToDelete)` (line 282): the value carries
its own primary key. -/
def deleteProduct (p : Product) : Stmt :=
  { op := Op.delete, table := Table.products, valuePK := p.ID }

/-- Lines 261-290. -/
def deleteRecords {σ : Type} (e : Engine σ) (c : Conn σ) : Conn σ × Option GoError :=
  let c := print c "\n--- DELETE Operations ---\n"
  match run e c deleteProduct4 with
  | (c, ⟨some err, _, _⟩) => (c, some (GoError.wrapf "failed to delete product by ID: " err))
  | (c, ⟨none, rowsAffected, _⟩) =>
  let c := print c ("✅ Deleted " ++ toString rowsAffected ++ " product(s) by ID\n")
  match run e c deleteInactiveUsers with
  | (c, ⟨some err, _, _⟩) => (c, some (GoError.wrapf "failed to delete inactive users: " err))
  | (c, ⟨none, rowsAffected, _⟩) =>
  let c := print c ("✅ Deleted " ++ toString rowsAffected ++ " inactive user(s)\n")
  match run e c lookupP003 with
  | (c, ⟨_, _, dest⟩) =>
  let productToDelete := dest.productOr Product.zero
  if productToDelete.ID ≠ 0 then
    match run e c (deleteProduct productToDelete) with
    | (c, ⟨some err, _, _⟩) => (c, some (GoError.wrapf "failed to delete specific product: " err))
    | (c, ⟨none, _, _⟩) => (print c ("✅ Deleted product: " ++ productToDelete.Name ++ "\n"), none)
  else
    (c, none)

/-- The text printed for one category in `demonstrateAdvancedQueries`
(lines 332-333). -/
def fmtCategory (stat : CategoryStats) : String :=
  "  " ++ stat.Category ++ ": " ++ toString stat.Count ++ " products, avg price $" ++
    stat.AvgPrice.fmt2 ++ "\n"

/-- The numbered lines of the `for i, p := range topProducts` loop
(lines 340-342), `i` being the index of the head of the list. -/
def fmtTop : Nat → List Product → List String
  | _, [] => []
  | i, p :: rest =>
    ("  " ++ toString (i + 1) ++ ". " ++ p.Name ++ " - $" ++ toString p.Price ++ "\n") ::
      fmtTop (i + 1) rest

/-- The statement `db.Model(&Product{}).Count(&productCount)` (line 298). -/
def countProducts : Stmt := { op := Op.count, table := Table.products }

/-- Lines 293-345. -/
def demonstrateAdvancedQueries {σ : Type} (e : Engine σ) (c : Conn σ) : Conn σ × Option GoError :=
  let c := print c "\n=== Advanced Queries Demo ===\n"
  match run e c countProducts with
  | (c, ⟨_, _, dest⟩) =>
  let productCount := dest.countOr0
  let c := print c ("\n📊 Total products: " ++ toString productCount ++ "\n")
  match run e c { op := Op.count, table := Table.users,
                  wheres := [("active = ?", [Value.bool true])] } with
  | (c, ⟨_, _, dest⟩) =>
  let userCount := dest.countOr0
  let c := print c ("📊 Active users: " ++ toString userCount ++ "\n")
  match run e c { op := Op.scan, table := Table.products,
                  selects := some "AVG(price) as avg_price, MAX(price) as max_price, MIN(price) as min_price" } with
  | (c, ⟨_, _, dest⟩) =>
  let result := dest.priceStatsOr0
  let c := printAll c ["\n💹 Price Statistics:\n",
                       "  Average: $" ++ result.AvgPrice.fmt2 ++ "\n",
                       "  Maximum: $" ++ toString result.MaxPrice ++ "\n",
                       "  Minimum: $" ++ toString result.MinPrice ++ "\n"]
  match run e c { op := Op.scan, table := Table.products,
                  selects := some "category, COUNT(*) as count, AVG(price) as avg_price",
                  group := some "category", having := some "COUNT(*) > 0" } with
  | (c, ⟨_, _, dest⟩) =>
  let categoryStats := dest.categoryStatsList
  let c := print c "\n📈 Category Statistics:\n"
  let c := printAll c (categoryStats.map fmtCategory)
  match run e c { op := Op.find, table := Table.products,
                  wheres := [("in_stock = ?", [Value.bool true])],
                  order := some "price DESC", limit := some 3 } with
  | (c, ⟨_, _, dest⟩) =>
  let topProducts := dest.productList
  let c := print c "\n🏆 Top 3 Most Expensive In-Stock Products:\n"
  let c := printAll c (fmtTop 0 topProducts)
  (c, none)

/-- Lines 91-115. -/
def performCRUDOperations {σ : Type} (e : Engine σ) (c : Conn σ) : Conn σ × Option GoError :=
  let c := print c "\n=== CRUD Operations Demo ===\n"
  match createRecords e c with
  | (c, some err) => (c, some (GoError.wrapf "create operations failed: " err))
  | (c, none) =>
  match readRecords e c with
  | (c, some err) => (c, some (GoError.wrapf "read operations failed: " err))
  | (c, none) =>
  match updateRecords e c with
  | (c, some err) => (c, some (GoError.wrapf "update operations failed: " err))
  | (c, none) =>
  match deleteRecords e c with
  | (c, some err) => (c, some (GoError.wrapf "delete operations failed: " err))
  | (c, none) => (c, none)

/-- How `main` ends: `log.Fatal(msg, err)` at some step, or normal return. -/
inductive MainExit (σ : Type) where
  | fatal (msg : String) (err : GoError) (c : Option (Conn σ))
  | done (c : Conn σ)

/-- Lines 35-63.  `opened` is what `gorm.Open` returned; the first print of
`main` precedes the connection and is kept in front of the handle's output. -/
def main {σ : Type} (e : Engine σ) (opened : Except GoError σ) : MainExit σ :=
  match connectDatabase opened with
  | .error err => .fatal "Failed to connect to database:" err none
  | .ok c =>
  let c : Conn σ := { c with out := ["🚀 Starting GORM DuckDB Example...\n"] ++ c.out }
  let c := print c "✅ Successfully connected to DuckDB\n"
  match migrateDatabase e c with
  | (c, some err) => .fatal "Failed to migrate database:" err (some c)
  | (c, none) =>
  let c := print c "✅ Database migration completed\n"
  match performCRUDOperations e c with
  | (c, some err) => .fatal "CRUD operations failed:" err (some c)
  | (c, none) =>
  match demonstrateAdvancedQueries e c with
  | (c, some err) => .fatal "Advanced queries failed:" err (some c)
  | (c, none) => .done (print c "\n🎉 All operations completed successfully!\n")

/-! ### Vocabulary used to state properties of the requests issued -/

/-- The statements among a list of requests. -/
def stmtsOf : List Call → List Stmt
  | [] => []
  | Call.stmt s :: rest => s :: stmtsOf rest
  | Call.migrate _ :: rest => stmtsOf rest

/-- Whether a statement is an `UPDATE` or a `DELETE`. -/
def Stmt.isMutation (s : Stmt) : Bool :=
  s.op == Op.update || s.op == Op.updates || s.op == Op.delete

/-- An engine on which every statement reports the error `err` and writes
nothing, for instance because the connection is lost. -/
def brokenEngine (err : GoError) : Engine Unit where
  run _ _ := ((), ⟨some err, 0, Dest.none⟩)
  autoMigrate _ _ := ((), some err)

/-- An engine on which the statement `target` reports the error `err` and
writes nothing, while every other statement succeeds on one row. -/
def faultAt (target : Stmt) (err : GoError) : Engine Unit where
  run _ s := if s = target then ((), ⟨some err, 0, Dest.none⟩) else ((), ⟨none, 1, Dest.none⟩)
  autoMigrate _ _ := ((), none)

end GormDriverV1

end DuckdbExample

/-! ## Properties of `src/official/main.go` -/

set_option maxRecDepth 100000

namespace DuckdbExample.Official

/-- C1 (as stated, refuted): with the storage model holding an empty `users`
table (`usersDB 1 []`), the `UPDATE` and the `DELETE` for id 7 both execute successfully and
report zero affected rows, yet `updateUser` and `deleteUser` return an error;
so it is false that they return no error whenever the statement succeeds with
zero affected rows. -/
theorem zero_rows_not_nil :
    ¬ (∀ (σ : Type) (d : Driver σ) (c : Conn σ) (id : Int) (name : String) (age : Int)
        (r : ExecResult),
        (d.exec c.st updateSQL [Value.str name, Value.int age, Value.int id]).2 = .ok r →
        r.rowsAffected = .ok 0 → (updateUser d c id name age).2 = none) ∧
    ¬ (∀ (σ : Type) (d : Driver σ) (c : Conn σ) (id : Int) (r : ExecResult),
        (d.exec c.st deleteSQL [Value.int id]).2 = .ok r →
        r.rowsAffected = .ok 0 → (deleteUser d c id).2 = none) := by
  constructor
  · intro h
    have h1 := h MemDB memDriver (Conn.fresh (usersDB 1 [])) 7 "Zed" 40 ⟨.ok 0⟩ rfl rfl
    exact absurd h1 (by decide)
  · intro h
    have h1 := h MemDB memDriver (Conn.fresh (usersDB 1 [])) 7 ⟨.ok 0⟩ rfl rfl
    exact absurd h1 (by decide)

/-- C1 (amended): for every storage behaviour, handle and id, `updateUser` and
`deleteUser` return nil exactly when `Exec` succeeds and `RowsAffected`
succeeds with a non-zero count; when the count is zero they return the error
`no user found with ID: <id>`; an `Exec` or `RowsAffected` error is returned
unchanged. -/
theorem updateUser_deleteUser_outcome {σ : Type} (d : Driver σ) (c : Conn σ) (id : Int)
    (name : String) (age : Int) :
    (((updateUser d c id name age).2 = none ↔
        ∃ r n, (d.exec c.st updateSQL [Value.str name, Value.int age, Value.int id]).2 = .ok r ∧
          r.rowsAffected = .ok n ∧ n ≠ 0) ∧
      (∀ r, (d.exec c.st updateSQL [Value.str name, Value.int age, Value.int id]).2 = .ok r →
        r.rowsAffected = .ok 0 →
        (updateUser d c id name age).2 =
          some (GoError.errorf ("no user found with ID: " ++ fmtInt id))) ∧
      (∀ err, (d.exec c.st updateSQL [Value.str name, Value.int age, Value.int id]).2 = .error err →
        (updateUser d c id name age).2 = some err) ∧
      (∀ r err, (d.exec c.st updateSQL [Value.str name, Value.int age, Value.int id]).2 = .ok r →
        r.rowsAffected = .error err → (updateUser d c id name age).2 = some err)) ∧
    (((deleteUser d c id).2 = none ↔
        ∃ r n, (d.exec c.st deleteSQL [Value.int id]).2 = .ok r ∧
          r.rowsAffected = .ok n ∧ n ≠ 0) ∧
      (∀ r, (d.exec c.st deleteSQL [Value.int id]).2 = .ok r → r.rowsAffected = .ok 0 →
        (deleteUser d c id).2 = some (GoError.errorf ("no user found with ID: " ++ fmtInt id))) ∧
      (∀ err, (d.exec c.st deleteSQL [Value.int id]).2 = .error err →
        (deleteUser d c id).2 = some err) ∧
      (∀ r err, (d.exec c.st deleteSQL [Value.int id]).2 = .ok r →
        r.rowsAffected = .error err → (deleteUser d c id).2 = some err)) := by
  constructor
  · unfold updateUser dbExec
    rcases h : d.exec c.st updateSQL [Value.str name, Value.int age, Value.int id] with ⟨s1, r⟩
    rcases r with err | ⟨ra⟩
    · simp
    · rcases ra with err | n
      · simp
        rintro ⟨ra⟩ e hr he
        simp_all
      · by_cases hn : n = 0 <;> simp [hn] <;> rintro ⟨ra⟩ e hr he <;> simp_all
  · unfold deleteUser dbExec
    rcases h : d.exec c.st deleteSQL [Value.int id] with ⟨s1, r⟩
    rcases r with err | ⟨ra⟩
    · simp
    · rcases ra with err | n
      · simp
        rintro ⟨ra⟩ e hr he
        simp_all
      · by_cases hn : n = 0 <;> simp [hn] <;> rintro ⟨ra⟩ e hr he <;> simp_all

/-- Witness for C1 (amended): on the storage model with an empty `users` table
the `UPDATE` for id 7 succeeds with zero affected rows, and `updateUser`
returns the error `no user found with ID: 7`. -/
theorem updateUser_deleteUser_outcome_witness :
    (updateUser memDriver (Conn.fresh (usersDB 1 [])) 7 "Zed" 40).2 =
      some (GoError.errorf "no user found with ID: 7") :=
  (updateUser_deleteUser_outcome memDriver (Conn.fresh (usersDB 1 [])) 7 "Zed" 40).1.2.1
    ⟨.ok 0⟩ rfl rfl

/-- The calls issued by the insert loop are the insert calls of an initial
segment of the rows, in order. -/
theorem insertLoop_calls {σ : Type} (d : Driver σ) (us : List (String × Int)) (c : Conn σ) :
    ∃ k, k ≤ us.length ∧ (insertLoop d us c).1.calls = c.calls ++ (us.take k).map insertCall := by
  induction us generalizing c with
  | nil => exact ⟨0, le_refl _, by simp [insertLoop]⟩
  | cons u rest ih =>
    unfold insertLoop dbExec
    rcases h : d.exec c.st insertSQL [Value.str u.1, Value.int u.2] with ⟨s1, r⟩
    rcases r with err | res
    · exact ⟨1, by simp, by simp [insertCall]⟩
    · obtain ⟨k, hk, hc⟩ := ih ⟨s1, c.calls ++ [Call.exec insertSQL [Value.str u.1, Value.int u.2]], c.out⟩
      refine ⟨k + 1, by simpa using hk, ?_⟩
      simp only [hc]
      simp [insertCall]

/-- When every `Exec` succeeds the loop issues one insert per row, in order,
and returns nil. -/
theorem insertLoop_ok {σ : Type} (d : Driver σ) (us : List (String × Int)) (c : Conn σ)
    (h : allOk d c.st us = true) :
    insertLoop d us c = (⟨afterInserts d c.st us, c.calls ++ us.map insertCall, c.out⟩, none) := by
  induction us generalizing c with
  | nil => simp [insertLoop, afterInserts]
  | cons u rest ih =>
    unfold allOk at h
    unfold insertLoop dbExec afterInserts
    rcases hx : d.exec c.st insertSQL [Value.str u.1, Value.int u.2] with ⟨s1, r⟩
    rw [hx] at h
    rcases r with err | res
    · simp [execOk] at h
    · simp only [execOk, Bool.true_and] at h
      have := ih ⟨s1, c.calls ++ [Call.exec insertSQL [Value.str u.1, Value.int u.2]], c.out⟩ h
      simp only [this]
      simp [insertCall]

/-- When the `Exec`s for the rows `pre` succeed and the one for the next row
`u` fails with `err`, the loop stops there: it has issued the inserts for
`pre` and `u` only, and returns `err` wrapped with the name of `u`. -/
theorem insertLoop_fail {σ : Type} (d : Driver σ) (pre post : List (String × Int))
    (u : String × Int) (err : GoError) (c : Conn σ)
    (h : allOk d c.st pre = true)
    (hf : (d.exec (afterInserts d c.st pre) insertSQL [Value.str u.1, Value.int u.2]).2 = .error err) :
    insertLoop d (pre ++ u :: post) c =
      (⟨afterInserts d c.st (pre ++ [u]), c.calls ++ (pre ++ [u]).map insertCall, c.out⟩,
       some (GoError.wrapf ("failed to insert user " ++ u.1 ++ ": ") err)) := by
  induction pre generalizing c with
  | nil =>
    simp only [List.nil_append, afterInserts] at hf ⊢
    unfold insertLoop dbExec
    rcases hx : d.exec c.st insertSQL [Value.str u.1, Value.int u.2] with ⟨s1, r⟩
    rw [hx] at hf
    simp only at hf
    subst hf
    simp [insertCall]
  | cons v rest ih =>
    unfold allOk at h
    simp only [List.cons_append]
    unfold insertLoop dbExec
    simp only [afterInserts] at hf ⊢
    rcases hx : d.exec c.st insertSQL [Value.str v.1, Value.int v.2] with ⟨s1, r⟩
    rw [hx] at h hf
    rcases r with e1 | res
    · simp [execOk] at h
    · simp only [execOk, Bool.true_and] at h
      have := ih ⟨s1, c.calls ++ [Call.exec insertSQL [Value.str v.1, Value.int v.2]], c.out⟩ h hf
      simp only [this]
      simp [insertCall]

/-- The loop returns nil exactly when every `Exec` succeeds. -/
theorem insertLoop_nil_iff {σ : Type} (d : Driver σ) (us : List (String × Int)) (c : Conn σ) :
    (insertLoop d us c).2 = none ↔ allOk d c.st us = true := by
  induction us generalizing c with
  | nil => simp [insertLoop, allOk]
  | cons u rest ih =>
    unfold insertLoop dbExec allOk
    rcases hx : d.exec c.st insertSQL [Value.str u.1, Value.int u.2] with ⟨s1, r⟩
    rcases r with err | res
    · simp [execOk]
    · simp only [execOk, Bool.true_and]
      exact ih ⟨s1, c.calls ++ [Call.exec insertSQL [Value.str u.1, Value.int u.2]], c.out⟩

/-- The insert text of the program, parsed. -/
theorem parse_insertSQL :
    parseScript insertSQL =
      some [Statement.insert "USERS" ["NAME", "AGE"] [SqlExpr.param, SqlExpr.param]] := by
  decide

/-- No stored row has the key `next` when every stored id is below it. -/
theorem keyTaken_fresh (rows : List User) (next : Int) (h : ∀ r ∈ rows, r.ID < next) :
    keyTaken usersCols (rows.map userCells) [some (Value.int next)] = false := by
  induction rows with
  | nil => rfl
  | cons u rest ih =>
    have hu : u.ID ≠ next := by
      have := h u (List.mem_cons_self _ _)
      omega
    have ih1 := ih (fun r hr => h r (List.mem_cons_of_mem _ hr))
    simp only [keyTaken, Bool.and_eq_false_imp] at ih1 ⊢
    intro hk
    have ih2 := ih1 hk
    simp only [List.map_cons, List.any_cons, Bool.or_eq_false_iff]
    refine ⟨?_, ih2⟩
    simp [keyOf, userCells, usersCols, hu]

/-- The storage model accepts the program's insert when the sequence value is
above every id in the table: the row is appended with that id, the sequence
advances and one row is reported affected. -/
theorem memExec_insert (rows : List User) (next : Int) (name : String) (age : Int)
    (h : ∀ r ∈ rows, r.ID < next) :
    memExec (usersDB next rows) insertSQL [Value.str name, Value.int age] =
      (usersDB (next + 1) (rows ++ [⟨next, name, age⟩]), .ok ⟨.ok 1⟩) := by
  have hk := keyTaken_fresh rows next h
  simp only [usersCols] at hk
  unfold memExec runSQL
  rw [parse_insertSQL]
  simp only [runScript, execStmt, usersDB, findTable, bindExprs, bindExpr]
  simp [usersCols, hasColumn, buildRow, List.lookup, typeOk, findSeq, setSeq, nullViolation,
    keyOf, setRows, userCells, hk]

/-- A call whose script entry is a fault reports it and leaves the data as it
is. -/
theorem faulty_exec_some (db : MemDB) (e : GoError) (rest : List (Option GoError))
    (sql : String) (args : List Value) :
    faultyDriver.exec ⟨db, some e :: rest⟩ sql args = (⟨db, rest⟩, .error e) := rfl

/-- A call whose script entry is no fault behaves as the storage model. -/
theorem faulty_exec_none (db : MemDB) (rest : List (Option GoError))
    (sql : String) (args : List Value) :
    faultyDriver.exec ⟨db, none :: rest⟩ sql args =
      (⟨(memExec db sql args).1, rest⟩, (memExec db sql args).2) := rfl

/-- C5: the statements are parameter-safe.  For every storage behaviour, handle
and argument values, the calls issued are: by the insert loop (over any rows,
in particular those of `insertUsers`) the fixed text `insertSQL` with the
parameters name, age of each row; by `queryUserByID` the fixed text
`selectByIDSQL` with the parameter id; by `updateUser` the fixed text
`updateSQL` with the parameters name, age, id; by `deleteUser` the fixed text
`deleteSQL` with the parameter id.  The texts are constants (no argument occurs
in them) and contain 2, 1, 3 and 1 placeholders `?`, as many as there are bound
parameters. -/
theorem statements_parameter_safe {σ : Type} (d : Driver σ) (c : Conn σ) (id : Int)
    (name : String) (age : Int) (us : List (String × Int)) :
    ((∃ k, k ≤ us.length ∧ (insertLoop d us c).1.calls =
        c.calls ++ (us.take k).map (fun u => Call.exec insertSQL [Value.str u.1, Value.int u.2])) ∧
      (∃ k, k ≤ 3 ∧ (insertUsers d c).1.calls =
        c.calls ++ (seedUsers.take k).map
          (fun u => Call.exec insertSQL [Value.str u.1, Value.int u.2])) ∧
      placeholders insertSQL = 2) ∧
    ((queryUserByID d c id).1.calls = c.calls ++ [Call.queryRow selectByIDSQL [Value.int id]] ∧
      placeholders selectByIDSQL = 1) ∧
    ((updateUser d c id name age).1.calls =
        c.calls ++ [Call.exec updateSQL [Value.str name, Value.int age, Value.int id]] ∧
      placeholders updateSQL = 3) ∧
    ((deleteUser d c id).1.calls = c.calls ++ [Call.exec deleteSQL [Value.int id]] ∧
      placeholders deleteSQL = 1) := by
  refine ⟨⟨insertLoop_calls d us c, insertLoop_calls d seedUsers c, by decide⟩,
    ⟨?_, by decide⟩, ⟨?_, by decide⟩, ⟨?_, by decide⟩⟩
  · unfold queryUserByID dbQueryRowScan
    rcases d.queryRow c.st selectByIDSQL [Value.int id] with ⟨s1, r⟩
    rcases r with err | u
    · by_cases he : err = GoError.errNoRows <;> simp [he, print]
    · simp [print]
  · unfold updateUser dbExec
    rcases d.exec c.st updateSQL [Value.str name, Value.int age, Value.int id] with ⟨s1, r⟩
    rcases r with err | ⟨ra⟩
    · simp
    · rcases ra with err | n
      · simp
      · by_cases hn : n = 0 <;> simp [hn]
  · unfold deleteUser dbExec
    rcases d.exec c.st deleteSQL [Value.int id] with ⟨s1, r⟩
    rcases r with err | ⟨ra⟩
    · simp
    · rcases ra with err | n
      · simp
      · by_cases hn : n = 0 <;> simp [hn]

/-- C6: `insertUsers` is one `Exec` per row, in list order, with no
transaction around them.  For every storage behaviour and handle: if the
`Exec`s for the first `k` rows succeed and the one for row `k` fails with
`err`, then `insertUsers` has issued exactly the inserts for rows `0..k` (none
for a later row, and no other statement such as a rollback), the storage state
is the one those `Exec`s produced, and the error returned is `err` wrapped as
`failed to insert user <name of row k>: ...`; if all three succeed it has
issued the three inserts for Alice, Bob, Charlie in that order; it returns nil
exactly when all three succeed.  On the storage model with an injected fault
at call `k`, the rows inserted before `k` are still in the table afterwards. -/
theorem insertUsers_sequential {σ : Type} (d : Driver σ) (c : Conn σ) :
    (∀ (k : Nat) (user : String × Int) (err : GoError), seedUsers[k]? = some user →
      allOk d c.st (seedUsers.take k) = true →
      (d.exec (afterInserts d c.st (seedUsers.take k)) insertSQL
          [Value.str user.1, Value.int user.2]).2 = .error err →
      insertUsers d c =
        (⟨afterInserts d c.st (seedUsers.take (k + 1)),
          c.calls ++ (seedUsers.take (k + 1)).map insertCall, c.out⟩,
         some (GoError.wrapf ("failed to insert user " ++ user.1 ++ ": ") err))) ∧
    (allOk d c.st seedUsers = true →
      insertUsers d c =
        (⟨afterInserts d c.st seedUsers,
          c.calls ++ [insertCall ("Alice", 25), insertCall ("Bob", 30), insertCall ("Charlie", 35)],
          c.out⟩, none)) ∧
    ((insertUsers d c).2 = none ↔ allOk d c.st seedUsers = true) ∧
    (∀ (k : Nat) (err : GoError) (rows : List User) (next : Int), k < 3 →
      (∀ r ∈ rows, r.ID < next) →
      (insertUsers faultyDriver
          (Conn.fresh ⟨usersDB next rows, List.replicate k none ++ [some err]⟩)).1.st.db.tables =
        [⟨"USERS", usersCols,
          (rows ++ ([⟨next, "Alice", 25⟩, ⟨next + 1, "Bob", 30⟩, ⟨next + 2, "Charlie", 35⟩] :
            List User).take k).map userCells⟩]) := by
  refine ⟨?_, ?_, insertLoop_nil_iff d seedUsers c, ?_⟩
  · intro k user err hk hok hf
    have hsplit : seedUsers = seedUsers.take k ++ user :: seedUsers.drop (k + 1) := by
      have hk3 : k < 3 := by
        by_contra hcon
        have : seedUsers[k]? = none := by
          apply List.getElem?_eq_none
          simp [seedUsers]; omega
        rw [this] at hk; cases hk
      interval_cases k <;> simp [seedUsers] at hk ⊢ <;> exact hk
    have htake : seedUsers.take (k + 1) = seedUsers.take k ++ [user] := by
      rw [List.take_succ, hk]; rfl
    unfold insertUsers
    rw [htake]
    conv_lhs => rw [hsplit]
    exact insertLoop_fail d _ _ user err c hok hf
  · intro hok
    exact insertLoop_ok d seedUsers c hok
  · intro k err rows next hk hrows
    have hA : ∀ r ∈ rows ++ [(⟨next, "Alice", 25⟩ : User)], r.ID < next + 1 := by
      intro r hr
      rcases List.mem_append.1 hr with h | h
      · have := hrows r h; omega
      · simp at h; subst h; simp
    interval_cases k
    · simp [insertUsers, insertLoop, seedUsers, dbExec, Conn.fresh, faulty_exec_some, usersDB]
    · simp [insertUsers, insertLoop, seedUsers, dbExec, Conn.fresh, faulty_exec_some,
        faulty_exec_none, memExec_insert _ _ _ _ hrows]
      simp [usersDB]
    · simp [insertUsers, insertLoop, seedUsers, dbExec, Conn.fresh, faulty_exec_some,
        faulty_exec_none, memExec_insert _ _ _ _ hrows, memExec_insert _ _ _ _ hA]
      simp [usersDB]

/-- Witness for C6: on the storage model with a fresh `users` table and a fault
injected at the second call, the insert for Alice succeeds, the insert for Bob
fails, and `insertUsers` returns the fault wrapped with Bob's name. -/
theorem insertUsers_sequential_witness :
    seedUsers[1]? = some ("Bob", 30) ∧
    allOk faultyDriver
      (⟨usersDB 1 [], [none, some (GoError.storage "disk full")]⟩ : FaultDB)
      (seedUsers.take 1) = true ∧
    (insertUsers faultyDriver
        (Conn.fresh ⟨usersDB 1 [], [none, some (GoError.storage "disk full")]⟩)).2 =
      some (GoError.wrapf "failed to insert user Bob: " (GoError.storage "disk full")) :=
  ⟨rfl, by decide,
    congrArg Prod.snd
      ((insertUsers_sequential faultyDriver
          (Conn.fresh ⟨usersDB 1 [], [none, some (GoError.storage "disk full")]⟩)).1
        1 ("Bob", 30) (GoError.storage "disk full") rfl (by decide) rfl)⟩

/-- The schema text of the program, parsed: two creations, both with
`IF NOT EXISTS`, the sequence starting at 1. -/
theorem parse_createTableSQL :
    parseScript createTableSQL =
      some [Statement.createSequence true "USER_ID_SEQ" 1,
        Statement.createTable true "USERS" usersCols] := by
  decide

/-- A sequence is found after it has been added. -/
theorem findSeq_append_new (name : String) (v : Int) (seqs : List (String × Int))
    (h : findSeq name seqs = none) : findSeq name (seqs ++ [(name, v)]) = some v := by
  induction seqs with
  | nil => simp [findSeq]
  | cons p rest ih =>
    rcases p with ⟨n, w⟩
    by_cases hn : n = name
    · simp [findSeq, hn] at h
    · simp only [findSeq, hn, if_false, List.cons_append] at h ⊢
      exact ih h

/-- A sequence that exists keeps its value when others are added. -/
theorem findSeq_append_old (name : String) (v : Int) (seqs l : List (String × Int))
    (h : findSeq name seqs = some v) : findSeq name (seqs ++ l) = some v := by
  induction seqs with
  | nil => simp [findSeq] at h
  | cons p rest ih =>
    rcases p with ⟨n, w⟩
    by_cases hn : n = name
    · simpa [findSeq, hn] using h
    · simp only [findSeq, hn, if_false, List.cons_append] at h ⊢
      exact ih h

/-- A table is found after it has been added. -/
theorem findTable_append_new (t : TableData) (tables : List TableData)
    (h : findTable t.name tables = none) : findTable t.name (tables ++ [t]) = some t := by
  induction tables with
  | nil => simp [findTable]
  | cons u rest ih =>
    by_cases hn : u.name = t.name
    · simp [findTable, hn] at h
    · simp only [findTable, hn, if_false, List.cons_append] at h ⊢
      exact ih h

/-- A table that exists is kept, rows included, when others are added. -/
theorem findTable_append_old (name : String) (t : TableData) (tables l : List TableData)
    (h : findTable name tables = some t) : findTable name (tables ++ l) = some t := by
  induction tables with
  | nil => simp [findTable] at h
  | cons u rest ih =>
    by_cases hn : u.name = name
    · simpa [findTable, hn] using h
    · simp only [findTable, hn, if_false, List.cons_append] at h ⊢
      exact ih h

/-- What the storage model does with the schema text of the program: the
sequence is created at 1 unless one of that name exists, the table is created
empty unless one of that name exists, and the call succeeds. -/
theorem memExec_create (db : MemDB) :
    memExec db createTableSQL [] =
      (⟨if (findSeq "USER_ID_SEQ" db.seqs).isSome then db.seqs
          else db.seqs ++ [("USER_ID_SEQ", 1)],
        if (findTable "USERS" db.tables).isSome then db.tables
          else db.tables ++ [⟨"USERS", usersCols, []⟩]⟩, .ok ⟨.ok 0⟩) := by
  unfold memExec runSQL
  rw [parse_createTableSQL]
  simp only [runScript, execStmt]
  cases hs : findSeq "USER_ID_SEQ" db.seqs with
  | some v =>
    cases ht : findTable "USERS" db.tables with
    | some t => simp [ht]
    | none => simp [ht, hs, usersCols]
  | none =>
    have hs1 := findSeq_append_new "USER_ID_SEQ" 1 db.seqs hs
    cases ht : findTable "USERS" db.tables with
    | some t => simp [ht]
    | none => simp [ht, hs1, usersCols]

/-- C7: schema creation is idempotent on the storage model, which reads the
statement text and lets `CREATE ... IF NOT EXISTS` leave an existing object
alone.  For every database state, if a first `createTable` succeeds then the
sequence `user_id_seq` and the table `users` exist, and a second `createTable`
succeeds too and leaves the storage state (every sequence with its next value,
every table with its rows) exactly as the first left it.  The first call keeps
every table that existed with its rows and every sequence that existed with
its next value; it issues the single schema text, which parses to a
`CREATE SEQUENCE IF NOT EXISTS` and a `CREATE TABLE IF NOT EXISTS` and nothing
else, and does not mention `DROP`. -/
theorem createTable_idempotent (c c1 : Conn MemDB) (h : createTable memDriver c = (c1, none)) :
    ((createTable memDriver c1).2 = none ∧ (createTable memDriver c1).1.st = c1.st) ∧
    ((findSeq "USER_ID_SEQ" c1.st.seqs).isSome = true ∧
      (findTable "USERS" c1.st.tables).isSome = true) ∧
    ((∀ name t, findTable name c.st.tables = some t → findTable name c1.st.tables = some t) ∧
      (∀ name v, findSeq name c.st.seqs = some v → findSeq name c1.st.seqs = some v)) ∧
    (c1.calls = c.calls ++ [Call.exec createTableSQL []] ∧
      parseScript createTableSQL =
        some [Statement.createSequence true "USER_ID_SEQ" 1,
          Statement.createTable true "USERS"
            [⟨"ID", ColType.integer, true, true, some "USER_ID_SEQ"⟩,
             ⟨"NAME", ColType.varchar, false, true, none⟩,
             ⟨"AGE", ColType.integer, false, true, none⟩]] ∧
      mentions createTableSQL "DROP" = false) := by
  have hc : c1 = ⟨⟨if (findSeq "USER_ID_SEQ" c.st.seqs).isSome then c.st.seqs
          else c.st.seqs ++ [("USER_ID_SEQ", 1)],
        if (findTable "USERS" c.st.tables).isSome then c.st.tables
          else c.st.tables ++ [⟨"USERS", usersCols, []⟩]⟩,
      c.calls ++ [Call.exec createTableSQL []], c.out⟩ := by
    simp only [createTable, dbExec, memDriver, memExec_create] at h
    exact ((Prod.mk.inj h).1).symm
  have hseq : (findSeq "USER_ID_SEQ" (if (findSeq "USER_ID_SEQ" c.st.seqs).isSome then c.st.seqs
      else c.st.seqs ++ [("USER_ID_SEQ", 1)])).isSome = true := by
    cases hs : findSeq "USER_ID_SEQ" c.st.seqs with
    | some v => simp [hs]
    | none => simp [findSeq_append_new "USER_ID_SEQ" 1 c.st.seqs hs]
  have htab : (findTable "USERS" (if (findTable "USERS" c.st.tables).isSome then c.st.tables
      else c.st.tables ++ [⟨"USERS", usersCols, []⟩])).isSome = true := by
    cases ht : findTable "USERS" c.st.tables with
    | some t => simp [ht]
    | none =>
      have := findTable_append_new ⟨"USERS", usersCols, []⟩ c.st.tables ht
      simp [this]
  subst hc
  refine ⟨⟨?_, ?_⟩, ⟨hseq, htab⟩, ⟨?_, ?_⟩, ⟨rfl, by decide, by decide⟩⟩
  · simp only [createTable, dbExec, memDriver, memExec_create]
  · simp only [createTable, dbExec, memDriver, memExec_create, hseq, htab, if_true]
  · intro name t ht
    by_cases hx : (findTable "USERS" c.st.tables).isSome = true
    · simpa [hx] using ht
    · simp only [hx]
      exact findTable_append_old name t _ _ ht
  · intro name v hv
    by_cases hx : (findSeq "USER_ID_SEQ" c.st.seqs).isSome = true
    · simpa [hx] using hv
    · simp only [hx]
      exact findSeq_append_old name v _ _ hv

/-- Witness for C7: on the empty database the first `createTable` succeeds and
yields the sequence at 1 and an empty `users` table; the second one succeeds
and leaves that state. -/
theorem createTable_idempotent_witness :
    createTable memDriver (Conn.fresh MemDB.empty) =
      (⟨usersDB 1 [], [Call.exec createTableSQL []], []⟩, none) ∧
    (createTable memDriver ⟨usersDB 1 [], [Call.exec createTableSQL []], []⟩).2 = none ∧
    (createTable memDriver ⟨usersDB 1 [], [Call.exec createTableSQL []], []⟩).1.st =
      usersDB 1 [] :=
  have h : createTable memDriver (Conn.fresh MemDB.empty) =
      (⟨usersDB 1 [], [Call.exec createTableSQL []], []⟩, none) := by
    simp only [createTable, dbExec, memDriver, memExec_create]
    rfl
  ⟨h, (createTable_idempotent _ _ h).1.1, (createTable_idempotent _ _ h).1.2⟩

/-- A scan failure ends the loop: the rows before it have been printed, no
later row is touched, and the scan error is returned. -/
theorem scanLoop_fail {σ : Type} (pre : List User) (err : GoError)
    (post : List (Except GoError User)) (e : Option GoError) (c : Conn σ) :
    scanLoop (pre.map Except.ok ++ Except.error err :: post) e c =
      (⟨c.st, c.calls, c.out ++ pre.map fmtUserRow⟩, some err) := by
  induction pre generalizing c with
  | nil => simp [scanLoop]
  | cons u rest ih =>
    show scanLoop (Except.ok u :: (rest.map Except.ok ++ Except.error err :: post)) e c = _
    rw [scanLoop, ih]
    simp [print]

/-- When every scan succeeds all rows are printed in order and the loop
returns what `rows.Err()` reports. -/
theorem scanLoop_ok {σ : Type} (us : List User) (e : Option GoError) (c : Conn σ) :
    scanLoop (us.map Except.ok) e c = (⟨c.st, c.calls, c.out ++ us.map fmtUserRow⟩, e) := by
  induction us generalizing c with
  | nil => simp [scanLoop]
  | cons u rest ih =>
    show scanLoop (Except.ok u :: rest.map Except.ok) e c = _
    rw [scanLoop, ih]
    simp [print]

/-- The loop returns nil exactly when every scan succeeded and `rows.Err()`
reports nothing. -/
theorem scanLoop_nil_iff {σ : Type} (l : List (Except GoError User)) (e : Option GoError)
    (c : Conn σ) : (scanLoop l e c).2 = none ↔ scansOk l = true ∧ e = none := by
  induction l generalizing c with
  | nil => simp [scanLoop, scansOk]
  | cons x rest ih =>
    rcases x with err | u
    · simp [scanLoop, scansOk]
    · simp only [scanLoop, scansOk]
      exact ih _

/-- C8: a row that fails to materialize fails the whole read.  For every
storage behaviour and handle: a `Query` error is returned as it is; if the scan
of some row fails, `queryAllUsers` returns that scan error having printed only
the rows before it; if every scan succeeds it prints every row and returns
what `rows.Err()` reports; it returns nil exactly when the query succeeded,
every row scanned successfully and `rows.Err()` reported nothing. -/
theorem queryAllUsers_fails_whole {σ : Type} (d : Driver σ) (c : Conn σ) :
    (∀ err, (d.query c.st selectAllSQL []).2 = .error err →
      (queryAllUsers d c).2 = some err ∧ (queryAllUsers d c).1.out = c.out) ∧
    (∀ (rows : Rows) (pre : List User) (err : GoError) (post : List (Except GoError User)),
      (d.query c.st selectAllSQL []).2 = .ok rows →
      rows.scans = pre.map Except.ok ++ Except.error err :: post →
      (queryAllUsers d c).2 = some err ∧
      (queryAllUsers d c).1.out = c.out ++ allUsersHeader ++ pre.map fmtUserRow) ∧
    (∀ (rows : Rows) (us : List User), (d.query c.st selectAllSQL []).2 = .ok rows →
      rows.scans = us.map Except.ok →
      (queryAllUsers d c).2 = rows.err ∧
      (queryAllUsers d c).1.out = c.out ++ allUsersHeader ++ us.map fmtUserRow) ∧
    ((queryAllUsers d c).2 = none ↔
      ∃ rows, (d.query c.st selectAllSQL []).2 = .ok rows ∧ scansOk rows.scans = true ∧
        rows.err = none) := by
  unfold queryAllUsers dbQuery
  rcases d.query c.st selectAllSQL [] with ⟨s1, r⟩
  rcases r with qe | rows
  · simp
  · refine ⟨by simp, ?_, ?_, ?_⟩
    · intro rows1 pre err post h1 h2
      simp only [Except.ok.injEq] at h1
      subst h1
      simp only [h2, scanLoop_fail]
      simp
    · intro rows1 us h1 h2
      simp only [Except.ok.injEq] at h1
      subst h1
      simp only [h2, scanLoop_ok]
      simp
    · simp only [scanLoop_nil_iff]
      simp

/-- Witness for C8: a result whose first row scans and whose second row fails
to decode makes `queryAllUsers` return the decode error after printing the
first row only. -/
theorem queryAllUsers_fails_whole_witness :
    (queryAllUsers
        (⟨memExec,
          fun s _ _ => (s, .ok ⟨[.ok ⟨1, "Alice", 25⟩, .error (GoError.storage "bad age"),
            .ok ⟨3, "Charlie", 35⟩], none⟩),
          memQueryRow⟩ : Driver MemDB) (Conn.fresh MemDB.empty)).2 =
      some (GoError.storage "bad age") ∧
    (queryAllUsers
        (⟨memExec,
          fun s _ _ => (s, .ok ⟨[.ok ⟨1, "Alice", 25⟩, .error (GoError.storage "bad age"),
            .ok ⟨3, "Charlie", 35⟩], none⟩),
          memQueryRow⟩ : Driver MemDB) (Conn.fresh MemDB.empty)).1.out =
      [] ++ allUsersHeader ++ [fmtUserRow ⟨1, "Alice", 25⟩] :=
  (queryAllUsers_fails_whole
      (⟨memExec,
        fun s _ _ => (s, .ok ⟨[.ok ⟨1, "Alice", 25⟩, .error (GoError.storage "bad age"),
          .ok ⟨3, "Charlie", 35⟩], none⟩),
        memQueryRow⟩ : Driver MemDB) (Conn.fresh MemDB.empty)).2.1
    ⟨[.ok ⟨1, "Alice", 25⟩, .error (GoError.storage "bad age"), .ok ⟨3, "Charlie", 35⟩], none⟩
    [⟨1, "Alice", 25⟩] (GoError.storage "bad age") [.ok ⟨3, "Charlie", 35⟩] rfl rfl

/-- C9: inserts omit the primary key and storage assigns the keys in insertion
order.  The column list of the `INSERT` text is `name, age` and the text parses
to an insert into `users` of those two columns (no `id`), both values being
placeholders; every call issued by `insertUsers` under any storage behaviour
is an `Exec` of that text.  On the storage model, which reads the texts (an
omitted column with `DEFAULT nextval` takes the next value of the sequence),
`createTable` on the empty database returns nil and leaves the sequence at 1
and the table empty; `insertUsers` then returns nil, its three `Exec`s report 3
affected rows in total, and it leaves the sequence at 4 and exactly the rows
(1, Alice, 25), (2, Bob, 30), (3, Charlie, 35) in that order. -/
theorem insertUsers_surrogate_keys :
    (insertColumns insertSQL = ["name", "age"] ∧
      parseScript insertSQL =
        some [Statement.insert "USERS" ["NAME", "AGE"] [SqlExpr.param, SqlExpr.param]]) ∧
    (∀ (σ : Type) (d : Driver σ) (c : Conn σ), ∃ k, k ≤ 3 ∧
      (insertUsers d c).1.calls = c.calls ++ (seedUsers.take k).map insertCall) ∧
    ((createTable memDriver (Conn.fresh MemDB.empty)).2 = none ∧
      (createTable memDriver (Conn.fresh MemDB.empty)).1.st = usersDB 1 []) ∧
    ((insertUsers memDriver (createTable memDriver (Conn.fresh MemDB.empty)).1).2 = none ∧
      insertAffected memDriver (createTable memDriver (Conn.fresh MemDB.empty)).1.st seedUsers = 3 ∧
      (insertUsers memDriver (createTable memDriver (Conn.fresh MemDB.empty)).1).1.st =
        usersDB 4 [⟨1, "Alice", 25⟩, ⟨2, "Bob", 30⟩, ⟨3, "Charlie", 35⟩] ∧
      (insertUsers memDriver (createTable memDriver (Conn.fresh MemDB.empty)).1).1.st.tables =
        [⟨"USERS", usersCols,
          [[some (Value.int 1), some (Value.str "Alice"), some (Value.int 25)],
           [some (Value.int 2), some (Value.str "Bob"), some (Value.int 30)],
           [some (Value.int 3), some (Value.str "Charlie"), some (Value.int 35)]]⟩]) := by
  refine ⟨⟨by decide, by decide⟩, fun σ d c => insertLoop_calls d seedUsers c,
    ⟨by decide, by decide⟩, ⟨by decide, by decide, by decide, by decide⟩⟩

/-- C10: on the storage model, which reads the statement texts, started as a
fresh empty database, `main` runs to its end.  Every step returns nil:
`createTable`, `insertUsers`, `queryAllUsers`, `queryUserByID 1`,
`updateUser 1 "Alice Updated" 26`, `queryUserByID 1`, `deleteUser 2` and the
final `queryAllUsers`; the `UPDATE` and the `DELETE` each report exactly one
affected row; the final `users` table is
[(1, Alice Updated, 26), (3, Charlie, 35)], the final `queryAllUsers` prints
exactly these two rows in that order, and the whole text printed by `main` is
the transcript given. -/
theorem main_runs_to_end :
    main memDriver (.ok MemDB.empty) = .done (queryAllUsers memDriver beforeFinalList).1 ∧
    ((createTable memDriver afterConnect).2 = none ∧
      (insertUsers memDriver afterCreate).2 = none ∧
      (queryAllUsers memDriver afterInsert).2 = none ∧
      (queryUserByID memDriver (queryAllUsers memDriver afterInsert).1 1).2 = none ∧
      (updateUser memDriver beforeUpdate 1 "Alice Updated" 26).2 = none ∧
      (queryUserByID memDriver afterUpdate 1).2 = none ∧
      (deleteUser memDriver beforeDelete 2).2 = none ∧
      (queryAllUsers memDriver beforeFinalList).2 = none) ∧
    (execAffected (memDriver.exec beforeUpdate.st updateSQL
        [Value.str "Alice Updated", Value.int 26, Value.int 1]).2 = 1 ∧
      execAffected (memDriver.exec beforeDelete.st deleteSQL [Value.int 2]).2 = 1) ∧
    ((queryAllUsers memDriver beforeFinalList).1.st =
        usersDB 4 [⟨1, "Alice Updated", 26⟩, ⟨3, "Charlie", 35⟩] ∧
      (queryAllUsers memDriver beforeFinalList).1.out =
        beforeFinalList.out ++ allUsersHeader ++
          [fmtUserRow ⟨1, "Alice Updated", 26⟩, fmtUserRow ⟨3, "Charlie", 35⟩] ∧
      (queryAllUsers memDriver beforeFinalList).1.out =
        ["✅ Successfully connected to DuckDB\n", "✅ Table created successfully\n",
          "✅ Users inserted successfully\n"] ++ allUsersHeader ++
        [fmtUserRow ⟨1, "Alice", 25⟩, fmtUserRow ⟨2, "Bob", 30⟩, fmtUserRow ⟨3, "Charlie", 35⟩,
          "\n=== User ID 1 ===\n", "ID: 1, Name: Alice, Age: 25\n",
          "✅ User updated successfully\n",
          "\n=== User ID 1 ===\n", "ID: 1, Name: Alice Updated, Age: 26\n",
          "✅ User deleted successfully\n", "\n=== Final user list ===\n"] ++ allUsersHeader ++
        [fmtUserRow ⟨1, "Alice Updated", 26⟩, fmtUserRow ⟨3, "Charlie", 35⟩]) := by
  refine ⟨rfl, ⟨by decide, by decide, by decide, by decide, by decide, by decide, by decide,
    by decide⟩, ⟨by decide, by decide⟩, ⟨by decide, by decide, by decide⟩⟩

end DuckdbExample.Official

/-! ## Properties of `src/gorm_driver_v1/main.go` -/

namespace DuckdbExample.GormDriverV1

/-- The remaining queries of `readRecords` return nil when neither reports an
error. -/
theorem readRecordsTail_nil {σ : Type} (e : Engine σ) (c : Conn σ)
    (h1 : (e.run c.st findExpensive).2.error = none)
    (h2 : (e.run (e.run c.st findExpensive).1 findActiveUsers).2.error = none) :
    (readRecordsTail e c).2 = none := by
  unfold readRecordsTail
  simp only [run, print, printAll]
  rcases hx : e.run c.st findExpensive with ⟨s1, ⟨eo1, ra1, d1⟩⟩
  rw [hx] at h1 h2
  simp only at h1 h2
  subst h1
  simp only
  rcases hy : e.run s1 findActiveUsers with ⟨s2, ⟨eo2, ra2, d2⟩⟩
  rw [hy] at h2
  simp only at h2
  subst h2
  rfl

/-- C3: a single-record fetch that finds no row is not an error.  For every
storage behaviour, handle and id: `queryUserByID` returns nil when the row scan
reports `sql.ErrNoRows` and returns any other scan error unchanged.  When the
listing that precedes it reports no error and the lookup of product 1 reports
`gorm.ErrRecordNotFound`, `readRecords` goes on with its remaining queries on
the storage state the lookup left (and returns nil when those report no
error); for any other lookup error it returns that error wrapped as
`failed to find product by ID: ...`. -/
theorem not_found_is_no_error {σ τ : Type} (d : Official.Driver σ) (c : Official.Conn σ)
    (id : Int) (e : Engine τ) (g : Conn τ) :
    ((d.queryRow c.st Official.selectByIDSQL [Value.int id]).2 = .error GoError.errNoRows →
      (Official.queryUserByID d c id).2 = none) ∧
    (∀ err, err ≠ GoError.errNoRows →
      (d.queryRow c.st Official.selectByIDSQL [Value.int id]).2 = .error err →
      (Official.queryUserByID d c id).2 = some err) ∧
    ((e.run g.st findAllProducts).2.error = none →
      (e.run (e.run g.st findAllProducts).1 firstProduct1).2.error =
        some GoError.errRecordNotFound →
      (∃ g1 : Conn τ, g1.st = (e.run (e.run g.st findAllProducts).1 firstProduct1).1 ∧
        readRecords e g = readRecordsTail e g1) ∧
      ((e.run (e.run (e.run g.st findAllProducts).1 firstProduct1).1 findExpensive).2.error = none →
        (e.run (e.run (e.run (e.run g.st findAllProducts).1 firstProduct1).1 findExpensive).1
          findActiveUsers).2.error = none →
        (readRecords e g).2 = none)) ∧
    (∀ err, err ≠ GoError.errRecordNotFound →
      (e.run g.st findAllProducts).2.error = none →
      (e.run (e.run g.st findAllProducts).1 firstProduct1).2.error = some err →
      (readRecords e g).2 = some (GoError.wrapf "failed to find product by ID: " err)) := by
  refine ⟨?_, ?_, ?_, ?_⟩
  · intro h
    unfold Official.queryUserByID Official.dbQueryRowScan
    rcases hx : d.queryRow c.st Official.selectByIDSQL [Value.int id] with ⟨s1, r⟩
    rw [hx] at h
    simp only at h
    subst h
    simp
  · intro err hne h
    unfold Official.queryUserByID Official.dbQueryRowScan
    rcases hx : d.queryRow c.st Official.selectByIDSQL [Value.int id] with ⟨s1, r⟩
    rw [hx] at h
    simp only at h
    subst h
    simp [hne]
  · intro h1 h2
    have key : ∃ g1 : Conn τ, g1.st = (e.run (e.run g.st findAllProducts).1 firstProduct1).1 ∧
        readRecords e g = readRecordsTail e g1 := by
      unfold readRecords
      simp only [run, print, printAll]
      rcases hx : e.run g.st findAllProducts with ⟨s1, ⟨eo1, ra1, d1⟩⟩
      rw [hx] at h1 h2
      simp only at h1 h2 ⊢
      subst h1
      simp only
      rcases hy : e.run s1 firstProduct1 with ⟨s2, ⟨eo2, ra2, d2⟩⟩
      rw [hy] at h2
      simp only at h2 ⊢
      subst h2
      simp only [if_true]
      exact ⟨_, rfl, rfl⟩
    refine ⟨key, ?_⟩
    intro h3 h4
    obtain ⟨g1, hg, hr⟩ := key
    rw [hr]
    apply readRecordsTail_nil
    · rw [hg]; exact h3
    · rw [hg]; exact h4
  · intro err hne h1 h2
    unfold readRecords
    simp only [run, print, printAll]
    rcases hx : e.run g.st findAllProducts with ⟨s1, ⟨eo1, ra1, d1⟩⟩
    rw [hx] at h1 h2
    simp only at h1 h2 ⊢
    subst h1
    simp only
    rcases hy : e.run s1 firstProduct1 with ⟨s2, ⟨eo2, ra2, d2⟩⟩
    rw [hy] at h2
    simp only at h2 ⊢
    subst h2
    simp [hne]

/-- Witness for C3: on the storage model with an empty `users` table the scan
for id 9 reports `sql.ErrNoRows` and `queryUserByID` returns nil; on an engine
whose lookup of product 1 reports `gorm.ErrRecordNotFound` while the other
statements succeed, `readRecords` returns nil. -/
theorem not_found_is_no_error_witness :
    (Official.queryUserByID Official.memDriver (Official.Conn.fresh (Official.usersDB 1 [])) 9).2 = none ∧
    (readRecords (faultAt firstProduct1 GoError.errRecordNotFound) (Conn.fresh ())).2 = none :=
  ⟨(not_found_is_no_error Official.memDriver (Official.Conn.fresh (Official.usersDB 1 [])) 9
      (faultAt firstProduct1 GoError.errRecordNotFound) (Conn.fresh ())).1 rfl,
   ((not_found_is_no_error Official.memDriver (Official.Conn.fresh (Official.usersDB 1 [])) 9
      (faultAt firstProduct1 GoError.errRecordNotFound) (Conn.fresh ())).2.2.1
      (by decide) (by decide)).2 (by decide) (by decide)⟩

/-- C2 (the code at the failing inputs): `demonstrateAdvancedQueries` returns
nil whatever the storage engine reports, so on an engine whose every statement
reports `connection lost` the error reported by the count (and by the four
statements after it) is dropped; and on an engine whose lookup of product
`P003` reports `connection lost`, `deleteRecords` returns nil as well, the
error of the lookup being dropped. -/
theorem storage_errors_swallowed :
    (∀ (σ : Type) (e : Engine σ) (c : Conn σ), (demonstrateAdvancedQueries e c).2 = none) ∧
    ((brokenEngine (GoError.storage "connection lost")).run () countProducts).2.error =
      some (GoError.storage "connection lost") ∧
    (demonstrateAdvancedQueries (brokenEngine (GoError.storage "connection lost"))
      (Conn.fresh ())).2 = none ∧
    ((faultAt lookupP003 (GoError.storage "connection lost")).run () lookupP003).2.error =
      some (GoError.storage "connection lost") ∧
    (deleteRecords (faultAt lookupP003 (GoError.storage "connection lost")) (Conn.fresh ())).2 =
      none ∧
    (deleteRecords (faultAt lookupP003 (GoError.storage "connection lost")) (Conn.fresh ())).1.calls =
      [Call.stmt deleteProduct4, Call.stmt deleteInactiveUsers, Call.stmt lookupP003] := by
  refine ⟨fun σ e c => rfl, rfl, rfl, by decide, by decide, by decide⟩

/-- Every `UPDATE` that `updateRecords` issues is restricted. -/
theorem updateRecords_restricted {σ : Type} (e : Engine σ) (g : Conn σ) :
    ∃ l, (updateRecords e g).1.calls = g.calls ++ l ∧
      ∀ s ∈ stmtsOf l, s.isMutation = true → s.restricted = true := by
  unfold updateRecords
  simp only [run, print]
  rcases e.run g.st updatePriceP001 with ⟨s1, ⟨eo1, ra1, d1⟩⟩
  rcases eo1 with _ | err
  swap
  · exact ⟨_, rfl, by decide⟩
  simp only
  rcases e.run s1 updatesP002 with ⟨s2, ⟨eo2, ra2, d2⟩⟩
  rcases eo2 with _ | err
  swap
  · simp only [List.append_assoc]
    exact ⟨_, rfl, by decide⟩
  simp only
  rcases e.run s2 updatesAlice with ⟨s3, ⟨eo3, ra3, d3⟩⟩
  rcases eo3 with _ | err
  swap
  · simp only [List.append_assoc]
    exact ⟨_, rfl, by decide⟩
  simp only
  rcases e.run s3 updateInStock with ⟨s4, ⟨eo4, ra4, d4⟩⟩
  rcases eo4 with _ | err
  all_goals
    simp only [List.append_assoc]
    exact ⟨_, rfl, by decide⟩

/-- Every `DELETE` that `deleteRecords` issues is restricted. -/
theorem deleteRecords_restricted {σ : Type} (e : Engine σ) (g : Conn σ) :
    ∃ l, (deleteRecords e g).1.calls = g.calls ++ l ∧
      ∀ s ∈ stmtsOf l, s.isMutation = true → s.restricted = true := by
  unfold deleteRecords
  simp only [run, print]
  rcases e.run g.st deleteProduct4 with ⟨s1, ⟨eo1, ra1, d1⟩⟩
  rcases eo1 with _ | err
  swap
  · exact ⟨_, rfl, by decide⟩
  simp only
  rcases e.run s1 deleteInactiveUsers with ⟨s2, ⟨eo2, ra2, d2⟩⟩
  rcases eo2 with _ | err
  swap
  · simp only [List.append_assoc]
    exact ⟨_, rfl, by decide⟩
  simp only
  rcases e.run s2 lookupP003 with ⟨s3, ⟨eo3, ra3, d3⟩⟩
  simp only
  by_cases hid : (d3.productOr Product.zero).ID = 0
  · simp only [hid, ne_eq, not_true_eq_false, if_false, List.append_assoc]
    exact ⟨_, rfl, by decide⟩
  · simp only [hid, ne_eq, not_false_eq_true, if_true]
    have hsafe : ∀ s ∈ stmtsOf [Call.stmt deleteProduct4, Call.stmt deleteInactiveUsers,
        Call.stmt lookupP003, Call.stmt (deleteProduct (d3.productOr Product.zero))],
        s.isMutation = true → s.restricted = true := by
      intro s hs _
      simp only [stmtsOf, List.mem_cons, List.mem_singleton, List.not_mem_nil, or_false] at hs
      rcases hs with h | h | h | h
      · subst h; decide
      · subst h; decide
      · subst h; decide
      · subst h
        simp [Stmt.restricted, deleteProduct, hid]
    rcases e.run s3 (deleteProduct (d3.productOr Product.zero)) with ⟨s4, ⟨eo4, ra4, d4⟩⟩
    rcases eo4 with _ | err
    all_goals
      simp only [List.append_assoc]
      exact ⟨_, rfl, hsafe⟩

/-- The one call of `updateUser` is the `UPDATE` with its three parameters. -/
theorem updateUser_calls {σ : Type} (d : Official.Driver σ) (c : Official.Conn σ) (id : Int)
    (name : String) (age : Int) :
    (Official.updateUser d c id name age).1.calls =
      c.calls ++ [Official.Call.exec Official.updateSQL
        [Value.str name, Value.int age, Value.int id]] := by
  unfold Official.updateUser Official.dbExec
  rcases d.exec c.st Official.updateSQL [Value.str name, Value.int age, Value.int id] with ⟨s1, r⟩
  rcases r with err | ⟨ra⟩
  · simp
  · rcases ra with err | n
    · simp
    · by_cases hn : n = 0 <;> simp [hn]

/-- The one call of `deleteUser` is the `DELETE` with its parameter. -/
theorem deleteUser_calls {σ : Type} (d : Official.Driver σ) (c : Official.Conn σ) (id : Int) :
    (Official.deleteUser d c id).1.calls =
      c.calls ++ [Official.Call.exec Official.deleteSQL [Value.int id]] := by
  unfold Official.deleteUser Official.dbExec
  rcases d.exec c.st Official.deleteSQL [Value.int id] with ⟨s1, r⟩
  rcases r with err | ⟨ra⟩
  · simp
  · rcases ra with err | n
    · simp
    · by_cases hn : n = 0 <;> simp [hn]

/-- C4: no update or delete is emitted unconditioned.  For every storage
behaviour, handle and argument values: the only statement of `updateUser` is
the `UPDATE` text ending in `WHERE id = ?` and the only statement of
`deleteUser` the `DELETE` text ending in `WHERE id = ?`; every `UPDATE` and
`DELETE` that `updateRecords` and `deleteRecords` issue carries a `Where`
clause, a primary-key argument or a value with a non-zero primary key; and,
once its first two deletes have succeeded, `deleteRecords` issues the delete of
the looked-up product exactly when the lookup left a record with a non-zero ID:
when the lookup wrote nothing or a zero ID the calls end with the lookup, the
storage state is the one the lookup left, and nil is returned. -/
theorem mutations_conditioned {σ τ : Type} (d : Official.Driver σ) (c : Official.Conn σ)
    (id : Int) (name : String) (age : Int) (e : Engine τ) (g : Conn τ) :
    (((Official.updateUser d c id name age).1.calls =
          c.calls ++ [Official.Call.exec Official.updateSQL
            [Value.str name, Value.int age, Value.int id]] ∧
        Official.mentions Official.updateSQL " WHERE id = ?" = true) ∧
      ((Official.deleteUser d c id).1.calls =
          c.calls ++ [Official.Call.exec Official.deleteSQL [Value.int id]] ∧
        Official.mentions Official.deleteSQL " WHERE id = ?" = true)) ∧
    (∃ l, (updateRecords e g).1.calls = g.calls ++ l ∧
      ∀ s ∈ stmtsOf l, s.isMutation = true → s.restricted = true) ∧
    (∃ l, (deleteRecords e g).1.calls = g.calls ++ l ∧
      ∀ s ∈ stmtsOf l, s.isMutation = true → s.restricted = true) ∧
    ((e.run g.st deleteProduct4).2.error = none →
      (e.run (e.run g.st deleteProduct4).1 deleteInactiveUsers).2.error = none →
      (((e.run (e.run (e.run g.st deleteProduct4).1 deleteInactiveUsers).1 lookupP003).2.dest.productOr
            Product.zero).ID = 0 →
        (deleteRecords e g).1.calls =
          g.calls ++ [Call.stmt deleteProduct4, Call.stmt deleteInactiveUsers, Call.stmt lookupP003] ∧
        (deleteRecords e g).1.st =
          (e.run (e.run (e.run g.st deleteProduct4).1 deleteInactiveUsers).1 lookupP003).1 ∧
        (deleteRecords e g).2 = none) ∧
      (((e.run (e.run (e.run g.st deleteProduct4).1 deleteInactiveUsers).1 lookupP003).2.dest.productOr
            Product.zero).ID ≠ 0 →
        (deleteRecords e g).1.calls =
          g.calls ++ [Call.stmt deleteProduct4, Call.stmt deleteInactiveUsers, Call.stmt lookupP003,
            Call.stmt (deleteProduct
              ((e.run (e.run (e.run g.st deleteProduct4).1 deleteInactiveUsers).1
                lookupP003).2.dest.productOr Product.zero))])) := by
  refine ⟨⟨⟨updateUser_calls d c id name age, by decide⟩, ⟨deleteUser_calls d c id, by decide⟩⟩,
    updateRecords_restricted e g, deleteRecords_restricted e g, ?_⟩
  intro h1 h2
  unfold deleteRecords
  simp only [run, print]
  rcases hx : e.run g.st deleteProduct4 with ⟨s1, ⟨eo1, ra1, d1⟩⟩
  rw [hx] at h1 h2
  simp only at h1 h2 ⊢
  subst h1
  simp only
  rcases hy : e.run s1 deleteInactiveUsers with ⟨s2, ⟨eo2, ra2, d2⟩⟩
  rw [hy] at h2
  simp only at h2 ⊢
  subst h2
  simp only
  rcases e.run s2 lookupP003 with ⟨s3, ⟨eo3, ra3, d3⟩⟩
  simp only
  constructor
  · intro hid
    simp [hid]
  · intro hid
    simp only [ne_eq, hid, not_false_eq_true, if_true]
    rcases e.run s3 (deleteProduct (d3.productOr Product.zero)) with ⟨s4, ⟨eo4, ra4, d4⟩⟩
    rcases eo4 with _ | err <;> simp

/-- Witness for C4: on an engine whose lookup of product `P003` finds nothing
while the other statements succeed, `deleteRecords` issues its two conditioned
deletes and the lookup, no further delete, and returns nil. -/
theorem mutations_conditioned_witness :
    (deleteRecords (faultAt lookupP003 GoError.errRecordNotFound) (Conn.fresh ())).1.calls =
      [] ++ [Call.stmt deleteProduct4, Call.stmt deleteInactiveUsers, Call.stmt lookupP003] ∧
    (deleteRecords (faultAt lookupP003 GoError.errRecordNotFound) (Conn.fresh ())).2 = none :=
  ⟨(((mutations_conditioned Official.memDriver (Official.Conn.fresh Official.MemDB.empty) 1 "a" 2
      (faultAt lookupP003 GoError.errRecordNotFound) (Conn.fresh ())).2.2.2
      (by decide) (by decide)).1 (by decide)).1,
   (((mutations_conditioned Official.memDriver (Official.Conn.fresh Official.MemDB.empty) 1 "a" 2
      (faultAt lookupP003 GoError.errRecordNotFound) (Conn.fresh ())).2.2.2
      (by decide) (by decide)).1 (by decide)).2.2⟩

end DuckdbExample.GormDriverV1
